import Mathlib

/-
  Verification of the httpdate crate (HTTP date parsing and formatting).

  The HttpDate struct, the three parsers, the formatter, validation and the
  historical variant are transcribed from src/src/date.rs, src/src/lib.rs and
  src/src/httpdate.rs.  Strings are embedded as lists of byte values (Nat).
  The calendar arithmetic of the external datealgo crate (days_in_month,
  date_to_weekday, systemtime_to_datetime, datetime_to_systemtime) is not part
  of the repository sources; those functions are modelled from the spec, §4.1.
-/

set_option maxHeartbeats 4000000
set_option maxRecDepth 10000

namespace Httpdate

/-- UTF-8 bytes of an ASCII string literal, as natural numbers. -/
def bytes (s : String) : List Nat := s.data.map Char.toNat

/-- HTTP timestamp type (struct HttpDate in src/src/date.rs). -/
structure HttpDate where
  sec : Nat
  min : Nat
  hour : Nat
  day : Nat
  mon : Nat
  year : Nat
  wday : Nat
deriving DecidableEq, Repr

/-- Modelled from the spec: the leap-year rule of §4.1 — a year is leap iff
divisible by 4 and (not divisible by 100 or divisible by 400).  This models the
leap-year test of the datealgo crate, which is not under src/; the same rule is
`is_leap_year` in src/src/httpdate.rs. -/
def is_leap_year (y : Nat) : Bool := y % 4 == 0 && (y % 100 != 0 || y % 400 == 0)

/-- Number of days in year `y` (366 for leap years, else 365). -/
def days_in_year (y : Nat) : Nat := if is_leap_year y then 366 else 365

/-- Modelled from the spec: `days_in_month(year, month)` of §4.1 (the
datealgo::days_in_month function, not under src/): returns 28–31 applying the
leap-year rule.  Out-of-range months are never consulted by callers. -/
def days_in_month (y m : Nat) : Nat :=
  match m with
  | 1 => 31
  | 2 => if is_leap_year y then 29 else 28
  | 3 => 31
  | 4 => 30
  | 5 => 31
  | 6 => 30
  | 7 => 31
  | 8 => 31
  | 9 => 30
  | 10 => 31
  | 11 => 30
  | 12 => 31
  | _ => 0

/-- Modelled from the spec: the cumulative month-length table of §4.1 — days
elapsed in year `y` before month `m` begins (0 for January), with the
leap-year correction from March on. -/
def cum_month_days (y m : Nat) : Nat :=
  (match m with
   | 0 => 0
   | 1 => 0
   | 2 => 31
   | 3 => 59
   | 4 => 90
   | 5 => 120
   | 6 => 151
   | 7 => 181
   | 8 => 212
   | 9 => 243
   | 10 => 273
   | 11 => 304
   | 12 => 334
   | _ => 365)
  + (if 3 ≤ m ∧ is_leap_year y then 1 else 0)

/-- Number of leap years in the interval [1970, y), by the closed-form
count also used in src/src/httpdate.rs. -/
def leap_years_before (y : Nat) : Nat :=
  ((y - 1) - 1968) / 4 - ((y - 1) - 1900) / 100 + ((y - 1) - 1600) / 400

/-- Days from 1970-01-01 to the first day of year `y` (for `y ≥ 1970`). -/
def days_to_year (y : Nat) : Nat := 365 * (y - 1970) + leap_years_before y

/-- Modelled from the spec: the day-count part of `civil_to_epoch_seconds`
(§4.1, datealgo::datetime_to_systemtime, not under src/) — days since
1970-01-01 of the civil date (y, m, d), via cumulative month lengths plus
leap-year corrections. -/
def days_from_civil (y m d : Nat) : Nat :=
  days_to_year y + cum_month_days y m + (d - 1)

/-- Modelled from the spec: `weekday_of(year, month, day)` of §4.1
(datealgo::date_to_weekday, not under src/): ISO weekday (Monday = 1 …
Sunday = 7) from the closed-form day count since the epoch; 1970-01-01 was a
Thursday. -/
def weekday_of (y m d : Nat) : Nat := (days_from_civil y m d + 3) % 7 + 1

/-- Modelled from the spec: `civil_to_epoch_seconds` of §4.1 — total seconds
since 1970-01-01T00:00:00Z of a civil date-time. -/
def civil_to_epoch_seconds (y m d h mi s : Nat) : Nat :=
  days_from_civil y m d * 86400 + h * 3600 + mi * 60 + s

/-- Year-peeling loop of `epoch_seconds_to_civil` (§4.1): starting from 1970,
subtract whole years from the remaining day count.  The fuel (8030 at the call
site) covers the whole supported range 1970–9999. -/
def year_from_days : Nat → Nat → Nat → Nat × Nat
  | 0, y, days => (y, days)
  | fuel + 1, y, days =>
    if days_in_year y ≤ days then year_from_days fuel (y + 1) (days - days_in_year y)
    else (y, days)

/-- Month lookup of `epoch_seconds_to_civil` (§4.1): find the month of a
day-of-year via the cumulative month-length table. -/
def month_from_yday (y r : Nat) : Nat × Nat :=
  if r < cum_month_days y 2 then (1, r)
  else if r < cum_month_days y 3 then (2, r - cum_month_days y 2)
  else if r < cum_month_days y 4 then (3, r - cum_month_days y 3)
  else if r < cum_month_days y 5 then (4, r - cum_month_days y 4)
  else if r < cum_month_days y 6 then (5, r - cum_month_days y 5)
  else if r < cum_month_days y 7 then (6, r - cum_month_days y 6)
  else if r < cum_month_days y 8 then (7, r - cum_month_days y 7)
  else if r < cum_month_days y 9 then (8, r - cum_month_days y 8)
  else if r < cum_month_days y 10 then (9, r - cum_month_days y 9)
  else if r < cum_month_days y 11 then (10, r - cum_month_days y 10)
  else if r < cum_month_days y 12 then (11, r - cum_month_days y 11)
  else (12, r - cum_month_days y 12)

/-- Modelled from the spec: the date part of `epoch_seconds_to_civil` (§4.1,
datealgo::systemtime_to_datetime, not under src/) — peel the day count since
the epoch into a year, then a month via the cumulative month-length table,
then the day of month. -/
def civil_from_days (z : Nat) : Nat × Nat × Nat :=
  let p := year_from_days 8030 1970 z
  let q := month_from_yday p.1 p.2
  (p.1, q.1, q.2 + 1)

/-- Modelled from the spec: `epoch_seconds_to_civil(seconds)` of §4.1 —
(year, month, day, hour, minute, second) of an instant. -/
def epoch_seconds_to_civil (secs : Nat) : Nat × Nat × Nat × Nat × Nat × Nat :=
  let c := civil_from_days (secs / 86400)
  let sod := secs % 86400
  (c.1, c.2.1, c.2.2, sod / 3600, sod % 3600 / 60, sod % 60)

/-- `HttpDate::is_valid` (src/src/date.rs lines 33–45). -/
def HttpDate.is_valid (d : HttpDate) : Bool :=
  decide (d.sec < 60) && decide (d.min < 60) && decide (d.hour < 24)
    && decide (0 < d.day) && decide (0 < d.mon) && decide (d.mon ≤ 12)
    && decide (1970 ≤ d.year) && decide (d.year ≤ 9999)
    && decide (d.day ≤ days_in_month d.year d.mon)
    && (d.wday == weekday_of d.year d.mon d.day)

/-- The successful branch of `impl From<SystemTime> for HttpDate`
(src/src/date.rs lines 47–71): datealgo::systemtime_to_datetime followed by
datealgo::date_to_weekday. -/
def httpDate_from_secs (secs : Nat) : HttpDate :=
  match epoch_seconds_to_civil secs with
  | (year, mon, day, hour, mi, sec) =>
    { sec := sec, min := mi, hour := hour, day := day, mon := mon, year := year,
      wday := weekday_of year mon day }

/-- `impl From<SystemTime> for HttpDate` (src/src/date.rs lines 47–71).
Instants are seconds since the epoch (negative = before the epoch); the
`duration_since(UNIX_EPOCH).expect` panic for pre-epoch instants and the
explicit `panic!` for instants at or after 253402300800 are modelled as
`none`. -/
def from_system_time (t : Int) : Option HttpDate :=
  if t < 0 then none
  else if 253402300800 ≤ t then none
  else some (httpDate_from_secs t.toNat)

/-- `impl From<HttpDate> for SystemTime` (src/src/date.rs lines 73–85):
datealgo::datetime_to_systemtime on the struct's fields (wday ignored). -/
def to_system_time (v : HttpDate) : Nat :=
  civil_to_epoch_seconds v.year v.mon v.day v.hour v.min v.sec

/-- `impl Ord for HttpDate` (src/src/date.rs lines 157–161): compare the
corresponding instants. -/
def HttpDate.cmp (a b : HttpDate) : Ordering :=
  compare (to_system_time a) (to_system_time b)

/-- Byte-window slice `s[a..b]`. -/
def slice (s : List Nat) (a b : Nat) : List Nat := (s.drop a).take (b - a)

/-- `toint_1` (src/src/date.rs lines 169–176); `x.wrapping_sub(b'0')` on a u8
is `(x + 208) % 256`. -/
def toint_1 (x : Nat) : Option Nat :=
  let result := (x + 208) % 256
  if result < 10 then some result else none

/-- `toint_2` (src/src/date.rs lines 178–187), applied to a 2-byte window. -/
def toint_2 (s : List Nat) : Option Nat :=
  let high := (s.getD 0 0 + 208) % 256
  let low := (s.getD 1 0 + 208) % 256
  if high < 10 ∧ low < 10 then some (high * 10 + low) else none

/-- `toint_4` (src/src/date.rs lines 190–201), applied to a 4-byte window. -/
def toint_4 (s : List Nat) : Option Nat :=
  let a := (s.getD 0 0 + 208) % 256
  let b := (s.getD 1 0 + 208) % 256
  let c := (s.getD 2 0 + 208) % 256
  let d := (s.getD 3 0 + 208) % 256
  if a < 10 ∧ b < 10 ∧ c < 10 ∧ d < 10 then
    some (a * 1000 + b * 100 + c * 10 + d)
  else none

/-- Month-name match of `parse_imf_fixdate` on the window `s[7..12]`. -/
def imf_month (w : List Nat) : Option Nat :=
  if w = bytes (" Jan ") then some 1
  else if w = bytes (" Feb ") then some 2
  else if w = bytes (" Mar ") then some 3
  else if w = bytes (" Apr ") then some 4
  else if w = bytes (" May ") then some 5
  else if w = bytes (" Jun ") then some 6
  else if w = bytes (" Jul ") then some 7
  else if w = bytes (" Aug ") then some 8
  else if w = bytes (" Sep ") then some 9
  else if w = bytes (" Oct ") then some 10
  else if w = bytes (" Nov ") then some 11
  else if w = bytes (" Dec ") then some 12
  else none

/-- Weekday-name match of `parse_imf_fixdate` on the window `s[..5]`. -/
def imf_wday (w : List Nat) : Option Nat :=
  if w = bytes ("Mon, ") then some 1
  else if w = bytes ("Tue, ") then some 2
  else if w = bytes ("Wed, ") then some 3
  else if w = bytes ("Thu, ") then some 4
  else if w = bytes ("Fri, ") then some 5
  else if w = bytes ("Sat, ") then some 6
  else if w = bytes ("Sun, ") then some 7
  else none

/-- `parse_imf_fixdate` (src/src/date.rs lines 203–240).
Example: `Sun, 06 Nov 1994 08:49:37 GMT`. -/
def parse_imf_fixdate (s : List Nat) : Option HttpDate :=
  if s.length ≠ 29 ∨ slice s 25 29 ≠ bytes (" GMT") ∨ s.getD 16 0 ≠ 32
      ∨ s.getD 19 0 ≠ 58 ∨ s.getD 22 0 ≠ 58 then none
  else
    match toint_2 (slice s 23 25), toint_2 (slice s 20 22), toint_2 (slice s 17 19),
        toint_2 (slice s 5 7), imf_month (slice s 7 12), toint_4 (slice s 12 16),
        imf_wday (slice s 0 5) with
    | some sec, some mi, some hour, some day, some mon, some year, some wd =>
      some { sec := sec, min := mi, hour := hour, day := day, mon := mon,
             year := year, wday := wd }
    | _, _, _, _, _, _, _ => none

/-- Weekday-name strip of `parse_rfc850_date`: try the seven full names in
order, returning the weekday number and the rest of the input. -/
def rfc850_wday (s : List Nat) : Option (Nat × List Nat) :=
  if s.take 8 = bytes ("Monday, ") then some (1, s.drop 8)
  else if s.take 9 = bytes ("Tuesday, ") then some (2, s.drop 9)
  else if s.take 11 = bytes ("Wednesday, ") then some (3, s.drop 11)
  else if s.take 10 = bytes ("Thursday, ") then some (4, s.drop 10)
  else if s.take 8 = bytes ("Friday, ") then some (5, s.drop 8)
  else if s.take 10 = bytes ("Saturday, ") then some (6, s.drop 10)
  else if s.take 8 = bytes ("Sunday, ") then some (7, s.drop 8)
  else none

/-- Month-name match of `parse_rfc850_date` on the window `s[2..7]`. -/
def rfc850_month (w : List Nat) : Option Nat :=
  if w = bytes ("-Jan-") then some 1
  else if w = bytes ("-Feb-") then some 2
  else if w = bytes ("-Mar-") then some 3
  else if w = bytes ("-Apr-") then some 4
  else if w = bytes ("-May-") then some 5
  else if w = bytes ("-Jun-") then some 6
  else if w = bytes ("-Jul-") then some 7
  else if w = bytes ("-Aug-") then some 8
  else if w = bytes ("-Sep-") then some 9
  else if w = bytes ("-Oct-") then some 10
  else if w = bytes ("-Nov-") then some 11
  else if w = bytes ("-Dec-") then some 12
  else none

/-- The part of `parse_rfc850_date` after the weekday name has been stripped:
structural checks on the fixed 22-byte remainder, the two-digit year with its
century rule, and the remaining fields (src/src/date.rs lines 262–293). -/
def rfc850_tail (s2 : List Nat) (wd : Nat) : Option HttpDate :=
  if s2.length ≠ 22 ∨ s2.getD 12 0 ≠ 58 ∨ s2.getD 15 0 ≠ 58
      ∨ slice s2 18 22 ≠ bytes (" GMT") then none
  else
    match toint_2 (slice s2 7 9) with
    | none => none
    | some yy =>
      match toint_2 (slice s2 16 18), toint_2 (slice s2 13 15),
          toint_2 (slice s2 10 12), toint_2 (slice s2 0 2),
          rfc850_month (slice s2 2 7) with
      | some sec, some mi, some hour, some day, some mon =>
        some { sec := sec, min := mi, hour := hour, day := day, mon := mon,
               year := if yy < 70 then yy + 2000 else yy + 1900, wday := wd }
      | _, _, _, _, _ => none

/-- `parse_rfc850_date` (src/src/date.rs lines 242–294).
Example: `Sunday, 06-Nov-94 08:49:37 GMT`. -/
def parse_rfc850_date (s : List Nat) : Option HttpDate :=
  if s.length < 23 then none
  else
    match rfc850_wday s with
    | none => none
    | some (wd, s2) => rfc850_tail s2 wd

/-- Month-name match of `parse_asctime` on the window `s[4..8]`. -/
def asctime_month (w : List Nat) : Option Nat :=
  if w = bytes ("Jan ") then some 1
  else if w = bytes ("Feb ") then some 2
  else if w = bytes ("Mar ") then some 3
  else if w = bytes ("Apr ") then some 4
  else if w = bytes ("May ") then some 5
  else if w = bytes ("Jun ") then some 6
  else if w = bytes ("Jul ") then some 7
  else if w = bytes ("Aug ") then some 8
  else if w = bytes ("Sep ") then some 9
  else if w = bytes ("Oct ") then some 10
  else if w = bytes ("Nov ") then some 11
  else if w = bytes ("Dec ") then some 12
  else none

/-- Weekday-name match of `parse_asctime` on the window `s[0..4]`. -/
def asctime_wday (w : List Nat) : Option Nat :=
  if w = bytes ("Mon ") then some 1
  else if w = bytes ("Tue ") then some 2
  else if w = bytes ("Wed ") then some 3
  else if w = bytes ("Thu ") then some 4
  else if w = bytes ("Fri ") then some 5
  else if w = bytes ("Sat ") then some 6
  else if w = bytes ("Sun ") then some 7
  else none

/-- `parse_asctime` (src/src/date.rs lines 296–342).
Example: `Sun Nov  6 08:49:37 1994`. -/
def parse_asctime (s : List Nat) : Option HttpDate :=
  if s.length ≠ 24 ∨ s.getD 10 0 ≠ 32 ∨ s.getD 13 0 ≠ 58 ∨ s.getD 16 0 ≠ 58
      ∨ s.getD 19 0 ≠ 32 then none
  else
    match toint_2 (slice s 17 19), toint_2 (slice s 14 16), toint_2 (slice s 11 13),
        (if s.getD 8 0 = 32 then toint_1 (s.getD 9 0) else toint_2 (slice s 8 10)),
        asctime_month (slice s 4 8), toint_4 (slice s 20 24),
        asctime_wday (slice s 0 4) with
    | some sec, some mi, some hour, some day, some mon, some year, some wd =>
      some { sec := sec, min := mi, hour := hour, day := day, mon := mon,
             year := year, wday := wd }
    | _, _, _, _, _, _, _ => none

/-- ASCII whitespace recognized by Rust's `str::trim` on ASCII input. -/
def is_ws (c : Nat) : Bool :=
  c == 9 || c == 10 || c == 11 || c == 12 || c == 13 || c == 32

/-- `s.trim()` on ASCII input: strip leading and trailing whitespace. -/
def trim (s : List Nat) : List Nat :=
  ((s.dropWhile is_ws).reverse.dropWhile is_ws).reverse

/-- `s.is_ascii()`: every byte is below 128. -/
def is_ascii (s : List Nat) : Bool := s.all (fun c => decide (c < 128))

/-- The parser chain of `HttpDate::from_str`: IMF-fixdate, then RFC 850, then
asctime. -/
def try_parsers (x : List Nat) : Option HttpDate :=
  (parse_imf_fixdate x).orElse
    (fun _ => (parse_rfc850_date x).orElse (fun _ => parse_asctime x))

/-- `impl FromStr for HttpDate` (src/src/date.rs lines 87–103). -/
def from_str (s : List Nat) : Option HttpDate :=
  if ¬ is_ascii s then none
  else
    (try_parsers (trim s)).bind
      (fun date => if ¬ date.is_valid then none else some date)

/-- `parse_http_date` (src/src/lib.rs lines 53–55). -/
def parse_http_date (s : List Nat) : Option Nat :=
  (from_str s).map to_system_time

/-- Weekday-name table of `impl Display for HttpDate`; `none` models the
`unreachable!` arm. -/
def wday_name (w : Nat) : Option (List Nat) :=
  match w with
  | 1 => some (bytes ("Mon"))
  | 2 => some (bytes ("Tue"))
  | 3 => some (bytes ("Wed"))
  | 4 => some (bytes ("Thu"))
  | 5 => some (bytes ("Fri"))
  | 6 => some (bytes ("Sat"))
  | 7 => some (bytes ("Sun"))
  | _ => none

/-- Month-name table of `impl Display for HttpDate`; `none` models the
`unreachable!` arm. -/
def mon_name (m : Nat) : Option (List Nat) :=
  match m with
  | 1 => some (bytes ("Jan"))
  | 2 => some (bytes ("Feb"))
  | 3 => some (bytes ("Mar"))
  | 4 => some (bytes ("Apr"))
  | 5 => some (bytes ("May"))
  | 6 => some (bytes ("Jun"))
  | 7 => some (bytes ("Jul"))
  | 8 => some (bytes ("Aug"))
  | 9 => some (bytes ("Sep"))
  | 10 => some (bytes ("Oct"))
  | 11 => some (bytes ("Nov"))
  | 12 => some (bytes ("Dec"))
  | _ => none

/-- `impl Display for HttpDate` (src/src/date.rs lines 105–155): the 29-byte
buffer `"   , 00     0000 00:00:00 GMT"` with the fields written at their
fixed offsets; `b'0' + x` is `48 + x`. -/
def fmt (v : HttpDate) : Option (List Nat) :=
  match wday_name v.wday, mon_name v.mon with
  | some w, some m =>
    some [w.getD 0 0, w.getD 1 0, w.getD 2 0, 44, 32,
          48 + v.day / 10, 48 + v.day % 10, 32,
          m.getD 0 0, m.getD 1 0, m.getD 2 0, 32,
          48 + v.year / 1000, 48 + v.year / 100 % 10, 48 + v.year / 10 % 10,
          48 + v.year % 10, 32,
          48 + v.hour / 10, 48 + v.hour % 10, 58,
          48 + v.min / 10, 48 + v.min % 10, 58,
          48 + v.sec / 10, 48 + v.sec % 10,
          32, 71, 77, 84]
  | _, _ => none

/-- `fmt_http_date` (src/src/lib.rs lines 60–62). -/
def fmt_http_date (t : Int) : Option (List Nat) :=
  (from_system_time t).bind fmt

/-- A byte in `'0'..'9'`. -/
def is_digit (c : Nat) : Bool := decide (48 ≤ c) && decide (c ≤ 57)

/-- A 2-byte window of ASCII digits. -/
def two_digits (w : List Nat) : Bool :=
  match w with
  | [x, y] => is_digit x && is_digit y
  | _ => false

/-- A 4-byte window of ASCII digits. -/
def four_digits (w : List Nat) : Bool :=
  match w with
  | [x, y, z, u] => is_digit x && is_digit y && is_digit z && is_digit u
  | _ => false

/-- Decidable IMF-fixdate surface grammar: `"Www, dd Mon yyyy HH:MM:SS GMT"`,
29 bytes, zero-padded numeric fields, known weekday and month tokens. -/
def imf_shape (s : List Nat) : Bool :=
  decide (s.length = 29) && (imf_wday (slice s 0 5)).isSome
    && two_digits (slice s 5 7) && (imf_month (slice s 7 12)).isSome
    && four_digits (slice s 12 16) && (slice s 16 17 == [32])
    && two_digits (slice s 17 19) && (slice s 19 20 == [58])
    && two_digits (slice s 20 22) && (slice s 22 23 == [58])
    && two_digits (slice s 23 25) && (slice s 25 29 == bytes (" GMT"))

/-- The 29-byte layout produced by the Display buffer, with the three weekday
name bytes, the three month name bytes and the numeric fields spelled out. -/
def imf_bytes (a b c m0 m1 m2 se mi ho da yr : Nat) : List Nat :=
  [a, b, c, 44, 32,
   48 + da / 10, 48 + da % 10, 32,
   m0, m1, m2, 32,
   48 + yr / 1000, 48 + yr / 100 % 10, 48 + yr / 10 % 10, 48 + yr % 10, 32,
   48 + ho / 10, 48 + ho % 10, 58,
   48 + mi / 10, 48 + mi % 10, 58,
   48 + se / 10, 48 + se % 10,
   32, 71, 77, 84]

namespace Old

/-- Year-peeling loop of the historical `impl From<SystemTime> for HttpDate`
(src/src/httpdate.rs lines 46–62): walk year by year from 1970. -/
def year_loop (year days : Nat) : Nat × Nat :=
  if h : (if is_leap_year year then 366 else 365) ≤ days then
    year_loop (year + 1) (days - (if is_leap_year year then 366 else 365))
  else (year, days)
termination_by days
decreasing_by
  rcases Bool.eq_false_or_eq_true (is_leap_year year) with hb | hb <;>
    simp [hb] at h ⊢ <;> omega

/-- Month loop of the historical conversion (src/src/httpdate.rs lines
67–74): `mon += 1; if days < mon_len break; days -= mon_len`. -/
def month_loop : List Nat → Nat → Nat → Nat × Nat
  | [], mon, days => (mon, days)
  | len :: rest, mon, days =>
    if days < len then (mon + 1, days)
    else month_loop rest (mon + 1) (days - len)

/-- The month-length array of the historical conversion, with February
lengthened in leap years (src/src/httpdate.rs lines 63–66). -/
def months_tbl (year : Nat) : List Nat :=
  if is_leap_year year then [31, 29, 31, 30, 31, 30, 31, 31, 30, 31, 30, 31]
  else [31, 28, 31, 30, 31, 30, 31, 31, 30, 31, 30, 31]

/-- Historical `impl From<SystemTime> for HttpDate`
(src/src/httpdate.rs lines 41–87). -/
def from_secs (secs_since_epoch : Nat) : HttpDate :=
  let days := secs_since_epoch / 86400
  let wday := (days + 3) % 7 + 1
  let secs_of_day := secs_since_epoch % 86400
  let p := year_loop 1970 days
  let q := month_loop (months_tbl p.1) 0 p.2
  { sec := secs_of_day % 60, min := secs_of_day % 3600 / 60,
    hour := secs_of_day / 3600, day := q.2 + 1, mon := q.1, year := p.1,
    wday := wday }

/-- The day-of-year match table of the historical
`impl From<HttpDate> for SystemTime` (src/src/httpdate.rs lines 93–106). -/
def month_yday (m : Nat) : Nat :=
  match m with
  | 1 => 0
  | 2 => 31
  | 3 => 59
  | 4 => 90
  | 5 => 120
  | 6 => 151
  | 7 => 181
  | 8 => 212
  | 9 => 243
  | 10 => 273
  | 11 => 304
  | _ => 334

/-- Historical `impl From<HttpDate> for SystemTime`
(src/src/httpdate.rs lines 89–115): closed-form leap-year count plus
day-of-year table. -/
def to_secs (v : HttpDate) : Nat :=
  let leap_years := ((v.year - 1) - 1968) / 4 - ((v.year - 1) - 1900) / 100
    + ((v.year - 1) - 1600) / 400
  let ydays := month_yday v.mon + v.day - 1
    + (if is_leap_year v.year && decide (2 < v.mon) then 1 else 0)
  let days := (v.year - 1970) * 365 + leap_years + ydays
  v.sec + v.min * 60 + v.hour * 3600 + days * 86400

end Old

/-! ### Calendar arithmetic lemmas -/

theorem is_leap_iff (y : Nat) :
    is_leap_year y = true ↔ (y % 4 = 0 ∧ (y % 100 ≠ 0 ∨ y % 400 = 0)) := by
  simp [is_leap_year, Bool.and_eq_true, Bool.or_eq_true, beq_iff_eq, bne_iff_ne]

theorem days_to_year_succ (y : Nat) (hy : 1970 ≤ y) :
    days_to_year (y + 1) = days_to_year y + days_in_year y := by
  rcases Bool.eq_false_or_eq_true (is_leap_year y) with hb | hb
  · have hd : days_in_year y = 366 := by simp [days_in_year, hb]
    have hb' := (is_leap_iff y).mp hb
    rw [hd]
    unfold days_to_year leap_years_before
    omega
  · have hd : days_in_year y = 365 := by simp [days_in_year, hb]
    have hb' : ¬ (y % 4 = 0 ∧ (y % 100 ≠ 0 ∨ y % 400 = 0)) := by
      rw [← is_leap_iff, hb]; simp
    rw [hd]
    unfold days_to_year leap_years_before
    omega

theorem days_to_year_mono {a b : Nat} (ha : 1970 ≤ a) (hab : a ≤ b) :
    days_to_year a ≤ days_to_year b := by
  induction b, hab using Nat.le_induction with
  | base => exact Nat.le_refl _
  | succ b hb ih =>
    have := days_to_year_succ b (Nat.le_trans ha hb)
    omega

theorem year_uniq {y1 r1 y2 r2 : Nat} (h1 : 1970 ≤ y1) (h2 : 1970 ≤ y2)
    (hr1 : r1 < days_in_year y1) (hr2 : r2 < days_in_year y2)
    (he : days_to_year y1 + r1 = days_to_year y2 + r2) : y1 = y2 ∧ r1 = r2 := by
  rcases Nat.lt_trichotomy y1 y2 with hlt | heq | hgt
  · exfalso
    have hs := days_to_year_succ y1 h1
    have hmono : days_to_year (y1 + 1) ≤ days_to_year y2 :=
      days_to_year_mono (by omega) (by omega)
    omega
  · subst heq; exact ⟨rfl, by omega⟩
  · exfalso
    have hs := days_to_year_succ y2 h2
    have hmono : days_to_year (y2 + 1) ≤ days_to_year y1 :=
      days_to_year_mono (by omega) (by omega)
    omega

theorem year_from_days_char (fuel : Nat) : ∀ (y z : Nat), 1970 ≤ y →
    days_to_year y + z < days_to_year (y + fuel) →
    days_to_year (year_from_days fuel y z).1 + (year_from_days fuel y z).2
        = days_to_year y + z
      ∧ (year_from_days fuel y z).2 < days_in_year (year_from_days fuel y z).1
      ∧ 1970 ≤ (year_from_days fuel y z).1
      ∧ (year_from_days fuel y z).1 < y + fuel := by
  induction fuel with
  | zero =>
    intro y z hy hlt
    rw [Nat.add_zero] at hlt
    exact absurd hlt (by omega)
  | succ fuel ih =>
    intro y z hy hlt
    simp only [year_from_days]
    by_cases hd : days_in_year y ≤ z
    · rw [if_pos hd]
      have h1 : days_to_year (y + 1) = days_to_year y + days_in_year y :=
        days_to_year_succ y hy
      have h2 : days_to_year (y + 1) + (z - days_in_year y)
          < days_to_year (y + 1 + fuel) := by
        have hfe : y + 1 + fuel = y + (fuel + 1) := by omega
        rw [hfe]; omega
      rcases ih (y + 1) (z - days_in_year y) (by omega) h2 with ⟨e1, e2, e3, e4⟩
      exact ⟨by omega, e2, e3, by omega⟩
    · rw [if_neg hd]
      exact ⟨rfl, show z < days_in_year y by omega, hy, show y < y + (fuel + 1) by omega⟩

theorem month_from_yday_char (y r : Nat) (hr : r < days_in_year y) (m d0 : Nat)
    (hmd : month_from_yday y r = (m, d0)) :
    1 ≤ m ∧ m ≤ 12 ∧ cum_month_days y m + d0 = r ∧ d0 < days_in_month y m := by
  have c1 : cum_month_days y 1 = 0 := rfl
  have c2 : cum_month_days y 2 = 31 := rfl
  have d1 : days_in_month y 1 = 31 := rfl
  have d3 : days_in_month y 3 = 31 := rfl
  have d4 : days_in_month y 4 = 30 := rfl
  have d5 : days_in_month y 5 = 31 := rfl
  have d6 : days_in_month y 6 = 30 := rfl
  have d7 : days_in_month y 7 = 31 := rfl
  have d8 : days_in_month y 8 = 31 := rfl
  have d9 : days_in_month y 9 = 30 := rfl
  have d10 : days_in_month y 10 = 31 := rfl
  have d11 : days_in_month y 11 = 30 := rfl
  have d12 : days_in_month y 12 = 31 := rfl
  rcases Bool.eq_false_or_eq_true (is_leap_year y) with hb | hb
  · have hr' : r < 366 := by
      have hdy : days_in_year y = 366 := by simp [days_in_year, hb]
      omega
    have d2 : days_in_month y 2 = 29 := by
      show (if is_leap_year y then 29 else 28) = 29
      rw [if_pos hb]
    have c3 : cum_month_days y 3 = 60 := by
      show 59 + (if 3 ≤ 3 ∧ is_leap_year y then 1 else 0) = 60
      rw [if_pos ⟨by omega, hb⟩]
    have c4 : cum_month_days y 4 = 91 := by
      show 90 + (if 3 ≤ 4 ∧ is_leap_year y then 1 else 0) = 91
      rw [if_pos ⟨by omega, hb⟩]
    have c5 : cum_month_days y 5 = 121 := by
      show 120 + (if 3 ≤ 5 ∧ is_leap_year y then 1 else 0) = 121
      rw [if_pos ⟨by omega, hb⟩]
    have c6 : cum_month_days y 6 = 152 := by
      show 151 + (if 3 ≤ 6 ∧ is_leap_year y then 1 else 0) = 152
      rw [if_pos ⟨by omega, hb⟩]
    have c7 : cum_month_days y 7 = 182 := by
      show 181 + (if 3 ≤ 7 ∧ is_leap_year y then 1 else 0) = 182
      rw [if_pos ⟨by omega, hb⟩]
    have c8 : cum_month_days y 8 = 213 := by
      show 212 + (if 3 ≤ 8 ∧ is_leap_year y then 1 else 0) = 213
      rw [if_pos ⟨by omega, hb⟩]
    have c9 : cum_month_days y 9 = 244 := by
      show 243 + (if 3 ≤ 9 ∧ is_leap_year y then 1 else 0) = 244
      rw [if_pos ⟨by omega, hb⟩]
    have c10 : cum_month_days y 10 = 274 := by
      show 273 + (if 3 ≤ 10 ∧ is_leap_year y then 1 else 0) = 274
      rw [if_pos ⟨by omega, hb⟩]
    have c11 : cum_month_days y 11 = 305 := by
      show 304 + (if 3 ≤ 11 ∧ is_leap_year y then 1 else 0) = 305
      rw [if_pos ⟨by omega, hb⟩]
    have c12 : cum_month_days y 12 = 335 := by
      show 334 + (if 3 ≤ 12 ∧ is_leap_year y then 1 else 0) = 335
      rw [if_pos ⟨by omega, hb⟩]
    unfold month_from_yday at hmd
    rw [c2, c3, c4, c5, c6, c7, c8, c9, c10, c11, c12] at hmd
    by_cases h1 : r < 31
    · rw [if_pos h1] at hmd
      injection hmd with hm hd0
      subst hm; subst hd0
      exact ⟨by omega, by omega, by rw [c1]; omega, by rw [d1]; omega⟩
    · rw [if_neg h1] at hmd
      by_cases h2 : r < 60
      · rw [if_pos h2] at hmd
        injection hmd with hm hd0
        subst hm; subst hd0
        exact ⟨by omega, by omega, by rw [c2]; omega, by rw [d2]; omega⟩
      · rw [if_neg h2] at hmd
        by_cases h3 : r < 91
        · rw [if_pos h3] at hmd
          injection hmd with hm hd0
          subst hm; subst hd0
          exact ⟨by omega, by omega, by rw [c3]; omega, by rw [d3]; omega⟩
        · rw [if_neg h3] at hmd
          by_cases h4 : r < 121
          · rw [if_pos h4] at hmd
            injection hmd with hm hd0
            subst hm; subst hd0
            exact ⟨by omega, by omega, by rw [c4]; omega, by rw [d4]; omega⟩
          · rw [if_neg h4] at hmd
            by_cases h5 : r < 152
            · rw [if_pos h5] at hmd
              injection hmd with hm hd0
              subst hm; subst hd0
              exact ⟨by omega, by omega, by rw [c5]; omega, by rw [d5]; omega⟩
            · rw [if_neg h5] at hmd
              by_cases h6 : r < 182
              · rw [if_pos h6] at hmd
                injection hmd with hm hd0
                subst hm; subst hd0
                exact ⟨by omega, by omega, by rw [c6]; omega, by rw [d6]; omega⟩
              · rw [if_neg h6] at hmd
                by_cases h7 : r < 213
                · rw [if_pos h7] at hmd
                  injection hmd with hm hd0
                  subst hm; subst hd0
                  exact ⟨by omega, by omega, by rw [c7]; omega, by rw [d7]; omega⟩
                · rw [if_neg h7] at hmd
                  by_cases h8 : r < 244
                  · rw [if_pos h8] at hmd
                    injection hmd with hm hd0
                    subst hm; subst hd0
                    exact ⟨by omega, by omega, by rw [c8]; omega, by rw [d8]; omega⟩
                  · rw [if_neg h8] at hmd
                    by_cases h9 : r < 274
                    · rw [if_pos h9] at hmd
                      injection hmd with hm hd0
                      subst hm; subst hd0
                      exact ⟨by omega, by omega, by rw [c9]; omega, by rw [d9]; omega⟩
                    · rw [if_neg h9] at hmd
                      by_cases h10 : r < 305
                      · rw [if_pos h10] at hmd
                        injection hmd with hm hd0
                        subst hm; subst hd0
                        exact ⟨by omega, by omega, by rw [c10]; omega, by rw [d10]; omega⟩
                      · rw [if_neg h10] at hmd
                        by_cases h11 : r < 335
                        · rw [if_pos h11] at hmd
                          injection hmd with hm hd0
                          subst hm; subst hd0
                          exact ⟨by omega, by omega, by rw [c11]; omega, by rw [d11]; omega⟩
                        · rw [if_neg h11] at hmd
                          injection hmd with hm hd0
                          subst hm; subst hd0
                          exact ⟨by omega, by omega, by rw [c12]; omega, by rw [d12]; omega⟩
  · have hr' : r < 365 := by
      have hdy : days_in_year y = 365 := by simp [days_in_year, hb]
      omega
    have d2 : days_in_month y 2 = 28 := by
      show (if is_leap_year y then 29 else 28) = 28
      rw [if_neg (fun hcon => absurd (hb ▸ hcon) Bool.false_ne_true)]
    have c3 : cum_month_days y 3 = 59 := by
      show 59 + (if 3 ≤ 3 ∧ is_leap_year y then 1 else 0) = 59
      rw [if_neg (fun hcon => absurd (hb ▸ hcon.2) Bool.false_ne_true)]
    have c4 : cum_month_days y 4 = 90 := by
      show 90 + (if 3 ≤ 4 ∧ is_leap_year y then 1 else 0) = 90
      rw [if_neg (fun hcon => absurd (hb ▸ hcon.2) Bool.false_ne_true)]
    have c5 : cum_month_days y 5 = 120 := by
      show 120 + (if 3 ≤ 5 ∧ is_leap_year y then 1 else 0) = 120
      rw [if_neg (fun hcon => absurd (hb ▸ hcon.2) Bool.false_ne_true)]
    have c6 : cum_month_days y 6 = 151 := by
      show 151 + (if 3 ≤ 6 ∧ is_leap_year y then 1 else 0) = 151
      rw [if_neg (fun hcon => absurd (hb ▸ hcon.2) Bool.false_ne_true)]
    have c7 : cum_month_days y 7 = 181 := by
      show 181 + (if 3 ≤ 7 ∧ is_leap_year y then 1 else 0) = 181
      rw [if_neg (fun hcon => absurd (hb ▸ hcon.2) Bool.false_ne_true)]
    have c8 : cum_month_days y 8 = 212 := by
      show 212 + (if 3 ≤ 8 ∧ is_leap_year y then 1 else 0) = 212
      rw [if_neg (fun hcon => absurd (hb ▸ hcon.2) Bool.false_ne_true)]
    have c9 : cum_month_days y 9 = 243 := by
      show 243 + (if 3 ≤ 9 ∧ is_leap_year y then 1 else 0) = 243
      rw [if_neg (fun hcon => absurd (hb ▸ hcon.2) Bool.false_ne_true)]
    have c10 : cum_month_days y 10 = 273 := by
      show 273 + (if 3 ≤ 10 ∧ is_leap_year y then 1 else 0) = 273
      rw [if_neg (fun hcon => absurd (hb ▸ hcon.2) Bool.false_ne_true)]
    have c11 : cum_month_days y 11 = 304 := by
      show 304 + (if 3 ≤ 11 ∧ is_leap_year y then 1 else 0) = 304
      rw [if_neg (fun hcon => absurd (hb ▸ hcon.2) Bool.false_ne_true)]
    have c12 : cum_month_days y 12 = 334 := by
      show 334 + (if 3 ≤ 12 ∧ is_leap_year y then 1 else 0) = 334
      rw [if_neg (fun hcon => absurd (hb ▸ hcon.2) Bool.false_ne_true)]
    unfold month_from_yday at hmd
    rw [c2, c3, c4, c5, c6, c7, c8, c9, c10, c11, c12] at hmd
    by_cases h1 : r < 31
    · rw [if_pos h1] at hmd
      injection hmd with hm hd0
      subst hm; subst hd0
      exact ⟨by omega, by omega, by rw [c1]; omega, by rw [d1]; omega⟩
    · rw [if_neg h1] at hmd
      by_cases h2 : r < 59
      · rw [if_pos h2] at hmd
        injection hmd with hm hd0
        subst hm; subst hd0
        exact ⟨by omega, by omega, by rw [c2]; omega, by rw [d2]; omega⟩
      · rw [if_neg h2] at hmd
        by_cases h3 : r < 90
        · rw [if_pos h3] at hmd
          injection hmd with hm hd0
          subst hm; subst hd0
          exact ⟨by omega, by omega, by rw [c3]; omega, by rw [d3]; omega⟩
        · rw [if_neg h3] at hmd
          by_cases h4 : r < 120
          · rw [if_pos h4] at hmd
            injection hmd with hm hd0
            subst hm; subst hd0
            exact ⟨by omega, by omega, by rw [c4]; omega, by rw [d4]; omega⟩
          · rw [if_neg h4] at hmd
            by_cases h5 : r < 151
            · rw [if_pos h5] at hmd
              injection hmd with hm hd0
              subst hm; subst hd0
              exact ⟨by omega, by omega, by rw [c5]; omega, by rw [d5]; omega⟩
            · rw [if_neg h5] at hmd
              by_cases h6 : r < 181
              · rw [if_pos h6] at hmd
                injection hmd with hm hd0
                subst hm; subst hd0
                exact ⟨by omega, by omega, by rw [c6]; omega, by rw [d6]; omega⟩
              · rw [if_neg h6] at hmd
                by_cases h7 : r < 212
                · rw [if_pos h7] at hmd
                  injection hmd with hm hd0
                  subst hm; subst hd0
                  exact ⟨by omega, by omega, by rw [c7]; omega, by rw [d7]; omega⟩
                · rw [if_neg h7] at hmd
                  by_cases h8 : r < 243
                  · rw [if_pos h8] at hmd
                    injection hmd with hm hd0
                    subst hm; subst hd0
                    exact ⟨by omega, by omega, by rw [c8]; omega, by rw [d8]; omega⟩
                  · rw [if_neg h8] at hmd
                    by_cases h9 : r < 273
                    · rw [if_pos h9] at hmd
                      injection hmd with hm hd0
                      subst hm; subst hd0
                      exact ⟨by omega, by omega, by rw [c9]; omega, by rw [d9]; omega⟩
                    · rw [if_neg h9] at hmd
                      by_cases h10 : r < 304
                      · rw [if_pos h10] at hmd
                        injection hmd with hm hd0
                        subst hm; subst hd0
                        exact ⟨by omega, by omega, by rw [c10]; omega, by rw [d10]; omega⟩
                      · rw [if_neg h10] at hmd
                        by_cases h11 : r < 334
                        · rw [if_pos h11] at hmd
                          injection hmd with hm hd0
                          subst hm; subst hd0
                          exact ⟨by omega, by omega, by rw [c11]; omega, by rw [d11]; omega⟩
                        · rw [if_neg h11] at hmd
                          injection hmd with hm hd0
                          subst hm; subst hd0
                          exact ⟨by omega, by omega, by rw [c12]; omega, by rw [d12]; omega⟩

theorem civil_from_days_char (z : Nat) (hz : z ≤ 2932896) :
    1970 ≤ (civil_from_days z).1 ∧ (civil_from_days z).1 ≤ 9999
      ∧ 1 ≤ (civil_from_days z).2.1 ∧ (civil_from_days z).2.1 ≤ 12
      ∧ 1 ≤ (civil_from_days z).2.2
      ∧ (civil_from_days z).2.2
          ≤ days_in_month (civil_from_days z).1 (civil_from_days z).2.1
      ∧ days_from_civil (civil_from_days z).1 (civil_from_days z).2.1
          (civil_from_days z).2.2 = z := by
  have h0 : days_to_year 1970 = 0 := by decide
  have h1 : days_to_year (1970 + 8030) = 2932897 := by decide
  have hlt : days_to_year 1970 + z < days_to_year (1970 + 8030) := by
    rw [h0, h1]; omega
  obtain ⟨e1, e2, e3, e4⟩ := year_from_days_char 8030 1970 z (by omega) hlt
  obtain ⟨m1, m2, m3, m4⟩ :=
    month_from_yday_char (year_from_days 8030 1970 z).1 (year_from_days 8030 1970 z).2 e2
      (month_from_yday (year_from_days 8030 1970 z).1 (year_from_days 8030 1970 z).2).1
      (month_from_yday (year_from_days 8030 1970 z).1 (year_from_days 8030 1970 z).2).2
      rfl
  have hc1 : (civil_from_days z).1 = (year_from_days 8030 1970 z).1 := rfl
  have hc2 : (civil_from_days z).2.1
      = (month_from_yday (year_from_days 8030 1970 z).1 (year_from_days 8030 1970 z).2).1 := rfl
  have hc3 : (civil_from_days z).2.2
      = (month_from_yday (year_from_days 8030 1970 z).1 (year_from_days 8030 1970 z).2).2 + 1 := rfl
  rw [hc1, hc2, hc3]
  refine ⟨e3, by omega, by omega, m2, by omega, by omega, ?_⟩
  simp only [days_from_civil]
  omega

theorem from_secs_fields (secs : Nat) :
    (httpDate_from_secs secs).sec = secs % 86400 % 60
      ∧ (httpDate_from_secs secs).min = secs % 86400 % 3600 / 60
      ∧ (httpDate_from_secs secs).hour = secs % 86400 / 3600
      ∧ (httpDate_from_secs secs).day = (civil_from_days (secs / 86400)).2.2
      ∧ (httpDate_from_secs secs).mon = (civil_from_days (secs / 86400)).2.1
      ∧ (httpDate_from_secs secs).year = (civil_from_days (secs / 86400)).1
      ∧ (httpDate_from_secs secs).wday
          = weekday_of (civil_from_days (secs / 86400)).1
              (civil_from_days (secs / 86400)).2.1 (civil_from_days (secs / 86400)).2.2 :=
  ⟨rfl, rfl, rfl, rfl, rfl, rfl, rfl⟩

theorem from_secs_valid (secs : Nat) (h : secs < 253402300800) :
    (httpDate_from_secs secs).is_valid = true := by
  have hz : secs / 86400 ≤ 2932896 := by omega
  obtain ⟨c1, c2, c3, c4, c5, c6, c7⟩ := civil_from_days_char (secs / 86400) hz
  obtain ⟨f1, f2, f3, f4, f5, f6, f7⟩ := from_secs_fields secs
  simp only [HttpDate.is_valid, f1, f2, f3, f4, f5, f6, f7, Bool.and_eq_true,
    decide_eq_true_eq, beq_iff_eq]
  refine ⟨?_, trivial⟩
  refine ⟨⟨⟨⟨⟨⟨⟨⟨by omega, by omega⟩, by omega⟩, by omega⟩, by omega⟩, by omega⟩,
    by omega⟩, by omega⟩, c6⟩

/-! ### Format/parse round-trip machinery -/

theorem toint_2_digits (a b : Nat) (ha : a ≤ 9) (hb : b ≤ 9) :
    toint_2 [48 + a, 48 + b] = some (10 * a + b) := by
  have e0 : ([48 + a, 48 + b] : List Nat).getD 0 0 = 48 + a := rfl
  have e1 : ([48 + a, 48 + b] : List Nat).getD 1 0 = 48 + b := rfl
  have h1 : (48 + a + 208) % 256 = a := by omega
  have h2 : (48 + b + 208) % 256 = b := by omega
  simp only [toint_2, e0, e1, h1, h2]
  rw [if_pos ⟨by omega, by omega⟩]
  congr 1
  omega

theorem toint_4_digits (a b c d : Nat) (ha : a ≤ 9) (hb : b ≤ 9) (hc : c ≤ 9)
    (hd : d ≤ 9) :
    toint_4 [48 + a, 48 + b, 48 + c, 48 + d]
      = some (a * 1000 + b * 100 + c * 10 + d) := by
  have e0 : ([48 + a, 48 + b, 48 + c, 48 + d] : List Nat).getD 0 0 = 48 + a := rfl
  have e1 : ([48 + a, 48 + b, 48 + c, 48 + d] : List Nat).getD 1 0 = 48 + b := rfl
  have e2 : ([48 + a, 48 + b, 48 + c, 48 + d] : List Nat).getD 2 0 = 48 + c := rfl
  have e3 : ([48 + a, 48 + b, 48 + c, 48 + d] : List Nat).getD 3 0 = 48 + d := rfl
  have h1 : (48 + a + 208) % 256 = a := by omega
  have h2 : (48 + b + 208) % 256 = b := by omega
  have h3 : (48 + c + 208) % 256 = c := by omega
  have h4 : (48 + d + 208) % 256 = d := by omega
  simp only [toint_4, e0, e1, e2, e3, h1, h2, h3, h4]
  rw [if_pos ⟨by omega, by omega, by omega, by omega⟩]

theorem wday_tbl (w : Nat) (h1 : 1 ≤ w) (h2 : w ≤ 7) :
    ∃ a b c, wday_name w = some [a, b, c] ∧ imf_wday [a, b, c, 44, 32] = some w
      ∧ a < 128 ∧ b < 128 ∧ c < 128 ∧ is_ws a = false := by
  interval_cases w
  · exact ⟨77, 111, 110, by decide, by decide, by decide, by decide, by decide, by decide⟩
  · exact ⟨84, 117, 101, by decide, by decide, by decide, by decide, by decide, by decide⟩
  · exact ⟨87, 101, 100, by decide, by decide, by decide, by decide, by decide, by decide⟩
  · exact ⟨84, 104, 117, by decide, by decide, by decide, by decide, by decide, by decide⟩
  · exact ⟨70, 114, 105, by decide, by decide, by decide, by decide, by decide, by decide⟩
  · exact ⟨83, 97, 116, by decide, by decide, by decide, by decide, by decide, by decide⟩
  · exact ⟨83, 117, 110, by decide, by decide, by decide, by decide, by decide, by decide⟩

theorem mon_tbl (m : Nat) (h1 : 1 ≤ m) (h2 : m ≤ 12) :
    ∃ a b c, mon_name m = some [a, b, c] ∧ imf_month [32, a, b, c, 32] = some m
      ∧ a < 128 ∧ b < 128 ∧ c < 128 := by
  interval_cases m
  · exact ⟨74, 97, 110, by decide, by decide, by decide, by decide, by decide⟩
  · exact ⟨70, 101, 98, by decide, by decide, by decide, by decide, by decide⟩
  · exact ⟨77, 97, 114, by decide, by decide, by decide, by decide, by decide⟩
  · exact ⟨65, 112, 114, by decide, by decide, by decide, by decide, by decide⟩
  · exact ⟨77, 97, 121, by decide, by decide, by decide, by decide, by decide⟩
  · exact ⟨74, 117, 110, by decide, by decide, by decide, by decide, by decide⟩
  · exact ⟨74, 117, 108, by decide, by decide, by decide, by decide, by decide⟩
  · exact ⟨65, 117, 103, by decide, by decide, by decide, by decide, by decide⟩
  · exact ⟨83, 101, 112, by decide, by decide, by decide, by decide, by decide⟩
  · exact ⟨79, 99, 116, by decide, by decide, by decide, by decide, by decide⟩
  · exact ⟨78, 111, 118, by decide, by decide, by decide, by decide, by decide⟩
  · exact ⟨68, 101, 99, by decide, by decide, by decide, by decide, by decide⟩

theorem days_in_month_le (y m : Nat) : days_in_month y m ≤ 31 := by
  unfold days_in_month
  split <;> first | omega | (split <;> omega)

theorem weekday_of_range (y m d : Nat) :
    1 ≤ weekday_of y m d ∧ weekday_of y m d ≤ 7 := by
  unfold weekday_of
  omega

theorem valid_bounds (v : HttpDate) (hval : v.is_valid = true) :
    v.sec < 60 ∧ v.min < 60 ∧ v.hour < 24 ∧ 1 ≤ v.day
      ∧ v.day ≤ days_in_month v.year v.mon ∧ 1 ≤ v.mon ∧ v.mon ≤ 12
      ∧ 1970 ≤ v.year ∧ v.year ≤ 9999
      ∧ v.wday = weekday_of v.year v.mon v.day := by
  simp only [HttpDate.is_valid, Bool.and_eq_true, decide_eq_true_eq,
    beq_iff_eq] at hval
  obtain ⟨⟨⟨⟨⟨⟨⟨⟨⟨h1, h2⟩, h3⟩, h4⟩, h5⟩, h6⟩, h7⟩, h8⟩, h9⟩, h10⟩ := hval
  exact ⟨h1, h2, h3, h4, h9, h5, h6, h7, h8, h10⟩

theorem trim_of_ends (x y : Nat) (xs : List Nat) (hx : is_ws x = false)
    (hy : is_ws y = false) :
    trim (x :: (xs ++ [y])) = x :: (xs ++ [y]) := by
  unfold trim
  rw [List.dropWhile_cons, hx]
  simp only [Bool.false_eq_true, if_false]
  rw [show (x :: (xs ++ [y])).reverse = y :: (xs.reverse ++ [x]) by simp]
  rw [List.dropWhile_cons, hy]
  simp

theorem fmt_eq (v : HttpDate) (a b c m0 m1 m2 : Nat)
    (hw : wday_name v.wday = some [a, b, c])
    (hm : mon_name v.mon = some [m0, m1, m2]) :
    fmt v = some (imf_bytes a b c m0 m1 m2 v.sec v.min v.hour v.day v.year) := by
  simp only [fmt, hw, hm]
  rfl

theorem parse_imf_build (a b c m0 m1 m2 wd mo se mi ho da yr : Nat)
    (hw : imf_wday [a, b, c, 44, 32] = some wd)
    (hm : imf_month [32, m0, m1, m2, 32] = some mo)
    (hse : se ≤ 99) (hmi : mi ≤ 99) (hho : ho ≤ 99) (hda : da ≤ 99)
    (hyr : yr ≤ 9999) :
    parse_imf_fixdate (imf_bytes a b c m0 m1 m2 se mi ho da yr)
      = some ⟨se, mi, ho, da, mo, yr, wd⟩ := by
  have e1 : toint_2 (slice (imf_bytes a b c m0 m1 m2 se mi ho da yr) 23 25)
      = some se := by
    rw [show slice (imf_bytes a b c m0 m1 m2 se mi ho da yr) 23 25
        = [48 + se / 10, 48 + se % 10] from rfl,
      toint_2_digits (se / 10) (se % 10) (by omega) (by omega)]
    exact congrArg some (by omega)
  have e2 : toint_2 (slice (imf_bytes a b c m0 m1 m2 se mi ho da yr) 20 22)
      = some mi := by
    rw [show slice (imf_bytes a b c m0 m1 m2 se mi ho da yr) 20 22
        = [48 + mi / 10, 48 + mi % 10] from rfl,
      toint_2_digits (mi / 10) (mi % 10) (by omega) (by omega)]
    exact congrArg some (by omega)
  have e3 : toint_2 (slice (imf_bytes a b c m0 m1 m2 se mi ho da yr) 17 19)
      = some ho := by
    rw [show slice (imf_bytes a b c m0 m1 m2 se mi ho da yr) 17 19
        = [48 + ho / 10, 48 + ho % 10] from rfl,
      toint_2_digits (ho / 10) (ho % 10) (by omega) (by omega)]
    exact congrArg some (by omega)
  have e4 : toint_2 (slice (imf_bytes a b c m0 m1 m2 se mi ho da yr) 5 7)
      = some da := by
    rw [show slice (imf_bytes a b c m0 m1 m2 se mi ho da yr) 5 7
        = [48 + da / 10, 48 + da % 10] from rfl,
      toint_2_digits (da / 10) (da % 10) (by omega) (by omega)]
    exact congrArg some (by omega)
  have e5 : imf_month (slice (imf_bytes a b c m0 m1 m2 se mi ho da yr) 7 12)
      = some mo := by
    rw [show slice (imf_bytes a b c m0 m1 m2 se mi ho da yr) 7 12
        = [32, m0, m1, m2, 32] from rfl]
    exact hm
  have e6 : toint_4 (slice (imf_bytes a b c m0 m1 m2 se mi ho da yr) 12 16)
      = some yr := by
    rw [show slice (imf_bytes a b c m0 m1 m2 se mi ho da yr) 12 16
        = [48 + yr / 1000, 48 + yr / 100 % 10, 48 + yr / 10 % 10, 48 + yr % 10]
        from rfl,
      toint_4_digits (yr / 1000) (yr / 100 % 10) (yr / 10 % 10) (yr % 10)
        (by omega) (by omega) (by omega) (by omega)]
    exact congrArg some (by omega)
  have e7 : imf_wday (slice (imf_bytes a b c m0 m1 m2 se mi ho da yr) 0 5)
      = some wd := by
    rw [show slice (imf_bytes a b c m0 m1 m2 se mi ho da yr) 0 5
        = [a, b, c, 44, 32] from rfl]
    exact hw
  unfold parse_imf_fixdate
  rw [if_neg (fun hcon => by rcases hcon with h | h | h | h | h <;> exact h rfl),
    e1, e2, e3, e4, e5, e6, e7]

theorem imf_bytes_ascii (a b c m0 m1 m2 se mi ho da yr : Nat)
    (hA : a < 128) (hB : b < 128) (hC : c < 128) (h0 : m0 < 128) (h1 : m1 < 128)
    (h2 : m2 < 128) (hse : se ≤ 99) (hmi : mi ≤ 99) (hho : ho ≤ 99)
    (hda : da ≤ 99) (hyr : yr ≤ 9999) :
    is_ascii (imf_bytes a b c m0 m1 m2 se mi ho da yr) = true := by
  simp only [is_ascii, imf_bytes, List.all_cons, List.all_nil, Bool.and_eq_true,
    decide_eq_true_eq, and_true]
  omega

theorem imf_bytes_shape (a b c m0 m1 m2 wd mo se mi ho da yr : Nat)
    (hw : imf_wday [a, b, c, 44, 32] = some wd)
    (hm : imf_month [32, m0, m1, m2, 32] = some mo)
    (hse : se ≤ 99) (hmi : mi ≤ 99) (hho : ho ≤ 99) (hda : da ≤ 99)
    (hyr : yr ≤ 9999) :
    imf_shape (imf_bytes a b c m0 m1 m2 se mi ho da yr) = true := by
  have s1 : slice (imf_bytes a b c m0 m1 m2 se mi ho da yr) 0 5
      = [a, b, c, 44, 32] := rfl
  have s2 : slice (imf_bytes a b c m0 m1 m2 se mi ho da yr) 5 7
      = [48 + da / 10, 48 + da % 10] := rfl
  have s3 : slice (imf_bytes a b c m0 m1 m2 se mi ho da yr) 7 12
      = [32, m0, m1, m2, 32] := rfl
  have s4 : slice (imf_bytes a b c m0 m1 m2 se mi ho da yr) 12 16
      = [48 + yr / 1000, 48 + yr / 100 % 10, 48 + yr / 10 % 10, 48 + yr % 10] := rfl
  have s5 : slice (imf_bytes a b c m0 m1 m2 se mi ho da yr) 16 17 = [32] := rfl
  have s6 : slice (imf_bytes a b c m0 m1 m2 se mi ho da yr) 17 19
      = [48 + ho / 10, 48 + ho % 10] := rfl
  have s7 : slice (imf_bytes a b c m0 m1 m2 se mi ho da yr) 19 20 = [58] := rfl
  have s8 : slice (imf_bytes a b c m0 m1 m2 se mi ho da yr) 20 22
      = [48 + mi / 10, 48 + mi % 10] := rfl
  have s9 : slice (imf_bytes a b c m0 m1 m2 se mi ho da yr) 22 23 = [58] := rfl
  have s10 : slice (imf_bytes a b c m0 m1 m2 se mi ho da yr) 23 25
      = [48 + se / 10, 48 + se % 10] := rfl
  have s11 : slice (imf_bytes a b c m0 m1 m2 se mi ho da yr) 25 29
      = [32, 71, 77, 84] := rfl
  have hlen : (imf_bytes a b c m0 m1 m2 se mi ho da yr).length = 29 := rfl
  have hgmt : (([32, 71, 77, 84] : List Nat) == bytes (" GMT")) = true := by decide
  simp only [imf_shape, s1, s2, s3, s4, s5, s6, s7, s8, s9, s10, s11, hw, hm,
    hlen, hgmt, Option.isSome_some, two_digits, four_digits, is_digit,
    Bool.and_eq_true, decide_eq_true_eq, beq_self_eq_true, and_true, true_and]
  omega

theorem from_str_build (a b c m0 m1 m2 wd mo se mi ho da yr : Nat)
    (hw : imf_wday [a, b, c, 44, 32] = some wd)
    (hm : imf_month [32, m0, m1, m2, 32] = some mo)
    (hA : a < 128) (hB : b < 128) (hC : c < 128)
    (h0 : m0 < 128) (h1 : m1 < 128) (h2 : m2 < 128)
    (hwsa : is_ws a = false)
    (hse : se ≤ 99) (hmi : mi ≤ 99) (hho : ho ≤ 99) (hda : da ≤ 99)
    (hyr : yr ≤ 9999)
    (hvalid : HttpDate.is_valid ⟨se, mi, ho, da, mo, yr, wd⟩ = true) :
    from_str (imf_bytes a b c m0 m1 m2 se mi ho da yr)
      = some ⟨se, mi, ho, da, mo, yr, wd⟩ := by
  have hascii := imf_bytes_ascii a b c m0 m1 m2 se mi ho da yr hA hB hC h0 h1 h2
    hse hmi hho hda hyr
  have htrim : trim (imf_bytes a b c m0 m1 m2 se mi ho da yr)
      = imf_bytes a b c m0 m1 m2 se mi ho da yr := by
    have hsh : imf_bytes a b c m0 m1 m2 se mi ho da yr
        = a :: ([b, c, 44, 32, 48 + da / 10, 48 + da % 10, 32, m0, m1, m2, 32,
            48 + yr / 1000, 48 + yr / 100 % 10, 48 + yr / 10 % 10, 48 + yr % 10,
            32, 48 + ho / 10, 48 + ho % 10, 58, 48 + mi / 10, 48 + mi % 10, 58,
            48 + se / 10, 48 + se % 10, 32, 71, 77] ++ [84]) := rfl
    rw [hsh, trim_of_ends a 84 _ hwsa (by decide)]
  have hpar : try_parsers (imf_bytes a b c m0 m1 m2 se mi ho da yr)
      = some ⟨se, mi, ho, da, mo, yr, wd⟩ := by
    unfold try_parsers
    rw [parse_imf_build a b c m0 m1 m2 wd mo se mi ho da yr hw hm hse hmi hho
      hda hyr]
    rfl
  unfold from_str
  rw [if_neg (not_not_intro hascii), htrim, hpar]
  simp [hvalid]

theorem from_str_of_fmt (v : HttpDate) (hval : v.is_valid = true) :
    ∃ L, fmt v = some L ∧ from_str L = some v ∧ L.length = 29
      ∧ is_ascii L = true ∧ imf_shape L = true := by
  obtain ⟨b1, b2, b3, b4, b5, b6, b7, b8, b9, b10⟩ := valid_bounds v hval
  have hwd1 : 1 ≤ v.wday := by
    rw [b10]; exact (weekday_of_range v.year v.mon v.day).1
  have hwd2 : v.wday ≤ 7 := by
    rw [b10]; exact (weekday_of_range v.year v.mon v.day).2
  have hdle : v.day ≤ 31 := Nat.le_trans b5 (days_in_month_le v.year v.mon)
  obtain ⟨a, b, c, hwn, hwi, hA, hB, hC, hwsa⟩ := wday_tbl v.wday hwd1 hwd2
  obtain ⟨m0, m1, m2, hmn, hmi2, h0, h1, h2⟩ := mon_tbl v.mon b6 b7
  refine ⟨imf_bytes a b c m0 m1 m2 v.sec v.min v.hour v.day v.year,
    fmt_eq v a b c m0 m1 m2 hwn hmn, ?_, rfl, ?_, ?_⟩
  · exact from_str_build a b c m0 m1 m2 v.wday v.mon v.sec v.min v.hour v.day
      v.year hwi hmi2 hA hB hC h0 h1 h2 hwsa (by omega) (by omega) (by omega)
      (by omega) b9 hval
  · exact imf_bytes_ascii a b c m0 m1 m2 v.sec v.min v.hour v.day v.year hA hB
      hC h0 h1 h2 (by omega) (by omega) (by omega) (by omega) b9
  · exact imf_bytes_shape a b c m0 m1 m2 v.wday v.mon v.sec v.min v.hour v.day
      v.year hwi hmi2 (by omega) (by omega) (by omega) (by omega) b9

theorem to_from (secs : Nat) (h : secs < 253402300800) :
    to_system_time (httpDate_from_secs secs) = secs := by
  have hz : secs / 86400 ≤ 2932896 := by omega
  obtain ⟨c1, c2, c3, c4, c5, c6, c7⟩ := civil_from_days_char (secs / 86400) hz
  obtain ⟨f1, f2, f3, f4, f5, f6, f7⟩ := from_secs_fields secs
  simp only [to_system_time, civil_to_epoch_seconds, f1, f2, f3, f4, f5, f6, c7]
  omega

/-! ### Shared calendar constants and injectivity -/

theorem cal_facts_leap (y : Nat) (hb : is_leap_year y = true) :
    cum_month_days y 1 = 0
      ∧ cum_month_days y 2 = 31
      ∧ cum_month_days y 3 = 60
      ∧ cum_month_days y 4 = 91
      ∧ cum_month_days y 5 = 121
      ∧ cum_month_days y 6 = 152
      ∧ cum_month_days y 7 = 182
      ∧ cum_month_days y 8 = 213
      ∧ cum_month_days y 9 = 244
      ∧ cum_month_days y 10 = 274
      ∧ cum_month_days y 11 = 305
      ∧ cum_month_days y 12 = 335
      ∧ days_in_month y 1 = 31
      ∧ days_in_month y 2 = 29
      ∧ days_in_month y 3 = 31
      ∧ days_in_month y 4 = 30
      ∧ days_in_month y 5 = 31
      ∧ days_in_month y 6 = 30
      ∧ days_in_month y 7 = 31
      ∧ days_in_month y 8 = 31
      ∧ days_in_month y 9 = 30
      ∧ days_in_month y 10 = 31
      ∧ days_in_month y 11 = 30
      ∧ days_in_month y 12 = 31
      ∧ days_in_year y = 366 :=
  ⟨rfl,
   rfl,
   by show 59 + (if 3 ≤ 3 ∧ is_leap_year y then 1 else 0) = 60; rw [if_pos ⟨by omega, hb⟩],
   by show 90 + (if 3 ≤ 4 ∧ is_leap_year y then 1 else 0) = 91; rw [if_pos ⟨by omega, hb⟩],
   by show 120 + (if 3 ≤ 5 ∧ is_leap_year y then 1 else 0) = 121; rw [if_pos ⟨by omega, hb⟩],
   by show 151 + (if 3 ≤ 6 ∧ is_leap_year y then 1 else 0) = 152; rw [if_pos ⟨by omega, hb⟩],
   by show 181 + (if 3 ≤ 7 ∧ is_leap_year y then 1 else 0) = 182; rw [if_pos ⟨by omega, hb⟩],
   by show 212 + (if 3 ≤ 8 ∧ is_leap_year y then 1 else 0) = 213; rw [if_pos ⟨by omega, hb⟩],
   by show 243 + (if 3 ≤ 9 ∧ is_leap_year y then 1 else 0) = 244; rw [if_pos ⟨by omega, hb⟩],
   by show 273 + (if 3 ≤ 10 ∧ is_leap_year y then 1 else 0) = 274; rw [if_pos ⟨by omega, hb⟩],
   by show 304 + (if 3 ≤ 11 ∧ is_leap_year y then 1 else 0) = 305; rw [if_pos ⟨by omega, hb⟩],
   by show 334 + (if 3 ≤ 12 ∧ is_leap_year y then 1 else 0) = 335; rw [if_pos ⟨by omega, hb⟩],
   rfl,
   by show (if is_leap_year y then 29 else 28) = 29; rw [if_pos hb],
   rfl,
   rfl,
   rfl,
   rfl,
   rfl,
   rfl,
   rfl,
   rfl,
   rfl,
   rfl,
   by show (if is_leap_year y then 366 else 365) = 366; rw [if_pos hb]⟩

theorem cal_facts_nonleap (y : Nat) (hb : is_leap_year y = false) :
    cum_month_days y 1 = 0
      ∧ cum_month_days y 2 = 31
      ∧ cum_month_days y 3 = 59
      ∧ cum_month_days y 4 = 90
      ∧ cum_month_days y 5 = 120
      ∧ cum_month_days y 6 = 151
      ∧ cum_month_days y 7 = 181
      ∧ cum_month_days y 8 = 212
      ∧ cum_month_days y 9 = 243
      ∧ cum_month_days y 10 = 273
      ∧ cum_month_days y 11 = 304
      ∧ cum_month_days y 12 = 334
      ∧ days_in_month y 1 = 31
      ∧ days_in_month y 2 = 28
      ∧ days_in_month y 3 = 31
      ∧ days_in_month y 4 = 30
      ∧ days_in_month y 5 = 31
      ∧ days_in_month y 6 = 30
      ∧ days_in_month y 7 = 31
      ∧ days_in_month y 8 = 31
      ∧ days_in_month y 9 = 30
      ∧ days_in_month y 10 = 31
      ∧ days_in_month y 11 = 30
      ∧ days_in_month y 12 = 31
      ∧ days_in_year y = 365 :=
  ⟨rfl,
   rfl,
   by show 59 + (if 3 ≤ 3 ∧ is_leap_year y then 1 else 0) = 59; rw [if_neg (fun hcon => absurd (hb ▸ hcon.2) Bool.false_ne_true)],
   by show 90 + (if 3 ≤ 4 ∧ is_leap_year y then 1 else 0) = 90; rw [if_neg (fun hcon => absurd (hb ▸ hcon.2) Bool.false_ne_true)],
   by show 120 + (if 3 ≤ 5 ∧ is_leap_year y then 1 else 0) = 120; rw [if_neg (fun hcon => absurd (hb ▸ hcon.2) Bool.false_ne_true)],
   by show 151 + (if 3 ≤ 6 ∧ is_leap_year y then 1 else 0) = 151; rw [if_neg (fun hcon => absurd (hb ▸ hcon.2) Bool.false_ne_true)],
   by show 181 + (if 3 ≤ 7 ∧ is_leap_year y then 1 else 0) = 181; rw [if_neg (fun hcon => absurd (hb ▸ hcon.2) Bool.false_ne_true)],
   by show 212 + (if 3 ≤ 8 ∧ is_leap_year y then 1 else 0) = 212; rw [if_neg (fun hcon => absurd (hb ▸ hcon.2) Bool.false_ne_true)],
   by show 243 + (if 3 ≤ 9 ∧ is_leap_year y then 1 else 0) = 243; rw [if_neg (fun hcon => absurd (hb ▸ hcon.2) Bool.false_ne_true)],
   by show 273 + (if 3 ≤ 10 ∧ is_leap_year y then 1 else 0) = 273; rw [if_neg (fun hcon => absurd (hb ▸ hcon.2) Bool.false_ne_true)],
   by show 304 + (if 3 ≤ 11 ∧ is_leap_year y then 1 else 0) = 304; rw [if_neg (fun hcon => absurd (hb ▸ hcon.2) Bool.false_ne_true)],
   by show 334 + (if 3 ≤ 12 ∧ is_leap_year y then 1 else 0) = 334; rw [if_neg (fun hcon => absurd (hb ▸ hcon.2) Bool.false_ne_true)],
   rfl,
   by show (if is_leap_year y then 29 else 28) = 28; rw [if_neg (fun hcon => absurd (hb ▸ hcon) Bool.false_ne_true)],
   rfl,
   rfl,
   rfl,
   rfl,
   rfl,
   rfl,
   rfl,
   rfl,
   rfl,
   rfl,
   by show (if is_leap_year y then 366 else 365) = 365; rw [if_neg (fun hcon => absurd (hb ▸ hcon) Bool.false_ne_true)]⟩

theorem yday_lt (y m d : Nat) (h1 : 1 ≤ m) (h2 : m ≤ 12) (h3 : 1 ≤ d)
    (h4 : d ≤ days_in_month y m) :
    cum_month_days y m + (d - 1) < days_in_year y := by
  rcases Bool.eq_false_or_eq_true (is_leap_year y) with hb | hb
  · obtain ⟨c1, c2, c3, c4, c5, c6, c7, c8, c9, c10, c11, c12, d1, d2, d3, d4,
      d5, d6, d7, d8, d9, d10, d11, d12, dy⟩ := cal_facts_leap y hb
    interval_cases m <;> omega
  · obtain ⟨c1, c2, c3, c4, c5, c6, c7, c8, c9, c10, c11, c12, d1, d2, d3, d4,
      d5, d6, d7, d8, d9, d10, d11, d12, dy⟩ := cal_facts_nonleap y hb
    interval_cases m <;> omega

theorem month_uniq (y m r n r2 : Nat) (hm1 : 1 ≤ m) (hm2 : m ≤ 12)
    (hn1 : 1 ≤ n) (hn2 : n ≤ 12) (hr : r < days_in_month y m)
    (hr2 : r2 < days_in_month y n)
    (he : cum_month_days y m + r = cum_month_days y n + r2) : m = n ∧ r = r2 := by
  rcases Bool.eq_false_or_eq_true (is_leap_year y) with hb | hb
  · obtain ⟨c1, c2, c3, c4, c5, c6, c7, c8, c9, c10, c11, c12, d1, d2, d3, d4,
      d5, d6, d7, d8, d9, d10, d11, d12, dy⟩ := cal_facts_leap y hb
    interval_cases m <;> interval_cases n <;> omega
  · obtain ⟨c1, c2, c3, c4, c5, c6, c7, c8, c9, c10, c11, c12, d1, d2, d3, d4,
      d5, d6, d7, d8, d9, d10, d11, d12, dy⟩ := cal_facts_nonleap y hb
    interval_cases m <;> interval_cases n <;> omega

theorem to_system_time_inj (v1 v2 : HttpDate) (hv1 : v1.is_valid = true)
    (hv2 : v2.is_valid = true)
    (he : to_system_time v1 = to_system_time v2) : v1 = v2 := by
  obtain ⟨a1, a2, a3, a4, a5, a6, a7, a8, a9, a10⟩ := valid_bounds v1 hv1
  obtain ⟨b1, b2, b3, b4, b5, b6, b7, b8, b9, b10⟩ := valid_bounds v2 hv2
  unfold to_system_time civil_to_epoch_seconds at he
  have hdays : days_from_civil v1.year v1.mon v1.day
      = days_from_civil v2.year v2.mon v2.day := by omega
  have htime : v1.hour = v2.hour ∧ v1.min = v2.min ∧ v1.sec = v2.sec := by omega
  unfold days_from_civil at hdays
  have hy1 := yday_lt v1.year v1.mon v1.day a6 a7 a4 a5
  have hy2 := yday_lt v2.year v2.mon v2.day b6 b7 b4 b5
  obtain ⟨hy, hr⟩ := year_uniq a8 b8 hy1 hy2 (by omega)
  rw [hy] at hdays a5
  obtain ⟨hm, hd⟩ := month_uniq v2.year v1.mon (v1.day - 1) v2.mon (v2.day - 1)
    a6 a7 b6 b7 (by omega) (by omega) (by omega)
  have hdd : v1.day = v2.day := by omega
  have hwd : v1.wday = v2.wday := by rw [a10, b10, hy, hm, hdd]
  have e1 : v1 = ⟨v1.sec, v1.min, v1.hour, v1.day, v1.mon, v1.year, v1.wday⟩ := rfl
  have e2 : v2 = ⟨v2.sec, v2.min, v2.hour, v2.day, v2.mon, v2.year, v2.wday⟩ := rfl
  rw [e1, e2, HttpDate.mk.injEq]
  exact ⟨htime.2.2, htime.2.1, htime.1, hdd, hm, hy, hwd⟩

/-! ### Equivalence of the historical conversions with the current ones -/

theorem old_year_loop_char : ∀ (z y : Nat), 1970 ≤ y →
    days_to_year (Old.year_loop y z).1 + (Old.year_loop y z).2 = days_to_year y + z
      ∧ (Old.year_loop y z).2 < days_in_year (Old.year_loop y z).1
      ∧ 1970 ≤ (Old.year_loop y z).1 := by
  intro z
  induction z using Nat.strong_induction_on with
  | _ z ih =>
    intro y hy
    rw [Old.year_loop]
    have hdy : (if is_leap_year y then 366 else 365) = days_in_year y := rfl
    by_cases hd : (if is_leap_year y then 366 else 365) ≤ z
    · rw [dif_pos hd, hdy]
      rw [hdy] at hd
      have hpos : 0 < days_in_year y := by unfold days_in_year; split <;> omega
      have hlt : z - days_in_year y < z := by omega
      have hrec := ih (z - days_in_year y) hlt (y + 1) (by omega)
      have hsucc := days_to_year_succ y hy
      exact ⟨by omega, hrec.2.1, hrec.2.2⟩
    · rw [dif_neg hd]
      rw [hdy] at hd
      exact ⟨rfl, show z < days_in_year y by omega, hy⟩

theorem old_month_loop_char (y r : Nat) (hr : r < days_in_year y) (m d0 : Nat)
    (hml : Old.month_loop (Old.months_tbl y) 0 r = (m, d0)) :
    1 ≤ m ∧ m ≤ 12 ∧ cum_month_days y m + d0 = r ∧ d0 < days_in_month y m := by
  rcases Bool.eq_false_or_eq_true (is_leap_year y) with hb | hb
  · obtain ⟨c1, c2, c3, c4, c5, c6, c7, c8, c9, c10, c11, c12, d1, d2, d3, d4,
      d5, d6, d7, d8, d9, d10, d11, d12, dy⟩ := cal_facts_leap y hb
    have htbl : Old.months_tbl y = [31, 29, 31, 30, 31, 30, 31, 31, 30, 31, 30, 31] := by
      unfold Old.months_tbl
      rw [if_pos hb]
    rw [htbl] at hml
    have hrb : r < 366 := by omega
    rw [show Old.month_loop [31, 29, 31, 30, 31, 30, 31, 31, 30, 31, 30, 31] 0 (r)
        = (if r < 31 then (1, r)
          else Old.month_loop [29, 31, 30, 31, 30, 31, 31, 30, 31, 30, 31] 1 (r - 31)) from rfl] at hml
    by_cases h1 : r < 31
    · rw [if_pos h1] at hml
      injection hml with hm hd0
      subst hm; subst hd0
      omega
    · rw [if_neg h1] at hml
      rw [show Old.month_loop [29, 31, 30, 31, 30, 31, 31, 30, 31, 30, 31] 1 (r - 31)
          = (if r - 31 < 29 then (2, r - 31)
            else Old.month_loop [31, 30, 31, 30, 31, 31, 30, 31, 30, 31] 2 (r - 31 - 29)) from rfl] at hml
      by_cases h2 : r - 31 < 29
      · rw [if_pos h2] at hml
        injection hml with hm hd0
        subst hm; subst hd0
        omega
      · rw [if_neg h2] at hml
        rw [show Old.month_loop [31, 30, 31, 30, 31, 31, 30, 31, 30, 31] 2 (r - 31 - 29)
            = (if r - 31 - 29 < 31 then (3, r - 31 - 29)
              else Old.month_loop [30, 31, 30, 31, 31, 30, 31, 30, 31] 3 (r - 31 - 29 - 31)) from rfl] at hml
        by_cases h3 : r - 31 - 29 < 31
        · rw [if_pos h3] at hml
          injection hml with hm hd0
          subst hm; subst hd0
          omega
        · rw [if_neg h3] at hml
          rw [show Old.month_loop [30, 31, 30, 31, 31, 30, 31, 30, 31] 3 (r - 31 - 29 - 31)
              = (if r - 31 - 29 - 31 < 30 then (4, r - 31 - 29 - 31)
                else Old.month_loop [31, 30, 31, 31, 30, 31, 30, 31] 4 (r - 31 - 29 - 31 - 30)) from rfl] at hml
          by_cases h4 : r - 31 - 29 - 31 < 30
          · rw [if_pos h4] at hml
            injection hml with hm hd0
            subst hm; subst hd0
            omega
          · rw [if_neg h4] at hml
            rw [show Old.month_loop [31, 30, 31, 31, 30, 31, 30, 31] 4 (r - 31 - 29 - 31 - 30)
                = (if r - 31 - 29 - 31 - 30 < 31 then (5, r - 31 - 29 - 31 - 30)
                  else Old.month_loop [30, 31, 31, 30, 31, 30, 31] 5 (r - 31 - 29 - 31 - 30 - 31)) from rfl] at hml
            by_cases h5 : r - 31 - 29 - 31 - 30 < 31
            · rw [if_pos h5] at hml
              injection hml with hm hd0
              subst hm; subst hd0
              omega
            · rw [if_neg h5] at hml
              rw [show Old.month_loop [30, 31, 31, 30, 31, 30, 31] 5 (r - 31 - 29 - 31 - 30 - 31)
                  = (if r - 31 - 29 - 31 - 30 - 31 < 30 then (6, r - 31 - 29 - 31 - 30 - 31)
                    else Old.month_loop [31, 31, 30, 31, 30, 31] 6 (r - 31 - 29 - 31 - 30 - 31 - 30)) from rfl] at hml
              by_cases h6 : r - 31 - 29 - 31 - 30 - 31 < 30
              · rw [if_pos h6] at hml
                injection hml with hm hd0
                subst hm; subst hd0
                omega
              · rw [if_neg h6] at hml
                rw [show Old.month_loop [31, 31, 30, 31, 30, 31] 6 (r - 31 - 29 - 31 - 30 - 31 - 30)
                    = (if r - 31 - 29 - 31 - 30 - 31 - 30 < 31 then (7, r - 31 - 29 - 31 - 30 - 31 - 30)
                      else Old.month_loop [31, 30, 31, 30, 31] 7 (r - 31 - 29 - 31 - 30 - 31 - 30 - 31)) from rfl] at hml
                by_cases h7 : r - 31 - 29 - 31 - 30 - 31 - 30 < 31
                · rw [if_pos h7] at hml
                  injection hml with hm hd0
                  subst hm; subst hd0
                  omega
                · rw [if_neg h7] at hml
                  rw [show Old.month_loop [31, 30, 31, 30, 31] 7 (r - 31 - 29 - 31 - 30 - 31 - 30 - 31)
                      = (if r - 31 - 29 - 31 - 30 - 31 - 30 - 31 < 31 then (8, r - 31 - 29 - 31 - 30 - 31 - 30 - 31)
                        else Old.month_loop [30, 31, 30, 31] 8 (r - 31 - 29 - 31 - 30 - 31 - 30 - 31 - 31)) from rfl] at hml
                  by_cases h8 : r - 31 - 29 - 31 - 30 - 31 - 30 - 31 < 31
                  · rw [if_pos h8] at hml
                    injection hml with hm hd0
                    subst hm; subst hd0
                    omega
                  · rw [if_neg h8] at hml
                    rw [show Old.month_loop [30, 31, 30, 31] 8 (r - 31 - 29 - 31 - 30 - 31 - 30 - 31 - 31)
                        = (if r - 31 - 29 - 31 - 30 - 31 - 30 - 31 - 31 < 30 then (9, r - 31 - 29 - 31 - 30 - 31 - 30 - 31 - 31)
                          else Old.month_loop [31, 30, 31] 9 (r - 31 - 29 - 31 - 30 - 31 - 30 - 31 - 31 - 30)) from rfl] at hml
                    by_cases h9 : r - 31 - 29 - 31 - 30 - 31 - 30 - 31 - 31 < 30
                    · rw [if_pos h9] at hml
                      injection hml with hm hd0
                      subst hm; subst hd0
                      omega
                    · rw [if_neg h9] at hml
                      rw [show Old.month_loop [31, 30, 31] 9 (r - 31 - 29 - 31 - 30 - 31 - 30 - 31 - 31 - 30)
                          = (if r - 31 - 29 - 31 - 30 - 31 - 30 - 31 - 31 - 30 < 31 then (10, r - 31 - 29 - 31 - 30 - 31 - 30 - 31 - 31 - 30)
                            else Old.month_loop [30, 31] 10 (r - 31 - 29 - 31 - 30 - 31 - 30 - 31 - 31 - 30 - 31)) from rfl] at hml
                      by_cases h10 : r - 31 - 29 - 31 - 30 - 31 - 30 - 31 - 31 - 30 < 31
                      · rw [if_pos h10] at hml
                        injection hml with hm hd0
                        subst hm; subst hd0
                        omega
                      · rw [if_neg h10] at hml
                        rw [show Old.month_loop [30, 31] 10 (r - 31 - 29 - 31 - 30 - 31 - 30 - 31 - 31 - 30 - 31)
                            = (if r - 31 - 29 - 31 - 30 - 31 - 30 - 31 - 31 - 30 - 31 < 30 then (11, r - 31 - 29 - 31 - 30 - 31 - 30 - 31 - 31 - 30 - 31)
                              else Old.month_loop [31] 11 (r - 31 - 29 - 31 - 30 - 31 - 30 - 31 - 31 - 30 - 31 - 30)) from rfl] at hml
                        by_cases h11 : r - 31 - 29 - 31 - 30 - 31 - 30 - 31 - 31 - 30 - 31 < 30
                        · rw [if_pos h11] at hml
                          injection hml with hm hd0
                          subst hm; subst hd0
                          omega
                        · rw [if_neg h11] at hml
                          rw [show Old.month_loop [31] 11 (r - 31 - 29 - 31 - 30 - 31 - 30 - 31 - 31 - 30 - 31 - 30)
                              = (if r - 31 - 29 - 31 - 30 - 31 - 30 - 31 - 31 - 30 - 31 - 30 < 31 then (12, r - 31 - 29 - 31 - 30 - 31 - 30 - 31 - 31 - 30 - 31 - 30)
                                else Old.month_loop [] 12 (r - 31 - 29 - 31 - 30 - 31 - 30 - 31 - 31 - 30 - 31 - 30 - 31)) from rfl] at hml
                          by_cases h12 : r - 31 - 29 - 31 - 30 - 31 - 30 - 31 - 31 - 30 - 31 - 30 < 31
                          · rw [if_pos h12] at hml
                            injection hml with hm hd0
                            subst hm; subst hd0
                            omega
                          · exfalso; omega
  · obtain ⟨c1, c2, c3, c4, c5, c6, c7, c8, c9, c10, c11, c12, d1, d2, d3, d4,
      d5, d6, d7, d8, d9, d10, d11, d12, dy⟩ := cal_facts_nonleap y hb
    have htbl : Old.months_tbl y = [31, 28, 31, 30, 31, 30, 31, 31, 30, 31, 30, 31] := by
      unfold Old.months_tbl
      rw [if_neg (fun hcon => absurd (hb ▸ hcon) Bool.false_ne_true)]
    rw [htbl] at hml
    have hrb : r < 365 := by omega
    rw [show Old.month_loop [31, 28, 31, 30, 31, 30, 31, 31, 30, 31, 30, 31] 0 (r)
        = (if r < 31 then (1, r)
          else Old.month_loop [28, 31, 30, 31, 30, 31, 31, 30, 31, 30, 31] 1 (r - 31)) from rfl] at hml
    by_cases h1 : r < 31
    · rw [if_pos h1] at hml
      injection hml with hm hd0
      subst hm; subst hd0
      omega
    · rw [if_neg h1] at hml
      rw [show Old.month_loop [28, 31, 30, 31, 30, 31, 31, 30, 31, 30, 31] 1 (r - 31)
          = (if r - 31 < 28 then (2, r - 31)
            else Old.month_loop [31, 30, 31, 30, 31, 31, 30, 31, 30, 31] 2 (r - 31 - 28)) from rfl] at hml
      by_cases h2 : r - 31 < 28
      · rw [if_pos h2] at hml
        injection hml with hm hd0
        subst hm; subst hd0
        omega
      · rw [if_neg h2] at hml
        rw [show Old.month_loop [31, 30, 31, 30, 31, 31, 30, 31, 30, 31] 2 (r - 31 - 28)
            = (if r - 31 - 28 < 31 then (3, r - 31 - 28)
              else Old.month_loop [30, 31, 30, 31, 31, 30, 31, 30, 31] 3 (r - 31 - 28 - 31)) from rfl] at hml
        by_cases h3 : r - 31 - 28 < 31
        · rw [if_pos h3] at hml
          injection hml with hm hd0
          subst hm; subst hd0
          omega
        · rw [if_neg h3] at hml
          rw [show Old.month_loop [30, 31, 30, 31, 31, 30, 31, 30, 31] 3 (r - 31 - 28 - 31)
              = (if r - 31 - 28 - 31 < 30 then (4, r - 31 - 28 - 31)
                else Old.month_loop [31, 30, 31, 31, 30, 31, 30, 31] 4 (r - 31 - 28 - 31 - 30)) from rfl] at hml
          by_cases h4 : r - 31 - 28 - 31 < 30
          · rw [if_pos h4] at hml
            injection hml with hm hd0
            subst hm; subst hd0
            omega
          · rw [if_neg h4] at hml
            rw [show Old.month_loop [31, 30, 31, 31, 30, 31, 30, 31] 4 (r - 31 - 28 - 31 - 30)
                = (if r - 31 - 28 - 31 - 30 < 31 then (5, r - 31 - 28 - 31 - 30)
                  else Old.month_loop [30, 31, 31, 30, 31, 30, 31] 5 (r - 31 - 28 - 31 - 30 - 31)) from rfl] at hml
            by_cases h5 : r - 31 - 28 - 31 - 30 < 31
            · rw [if_pos h5] at hml
              injection hml with hm hd0
              subst hm; subst hd0
              omega
            · rw [if_neg h5] at hml
              rw [show Old.month_loop [30, 31, 31, 30, 31, 30, 31] 5 (r - 31 - 28 - 31 - 30 - 31)
                  = (if r - 31 - 28 - 31 - 30 - 31 < 30 then (6, r - 31 - 28 - 31 - 30 - 31)
                    else Old.month_loop [31, 31, 30, 31, 30, 31] 6 (r - 31 - 28 - 31 - 30 - 31 - 30)) from rfl] at hml
              by_cases h6 : r - 31 - 28 - 31 - 30 - 31 < 30
              · rw [if_pos h6] at hml
                injection hml with hm hd0
                subst hm; subst hd0
                omega
              · rw [if_neg h6] at hml
                rw [show Old.month_loop [31, 31, 30, 31, 30, 31] 6 (r - 31 - 28 - 31 - 30 - 31 - 30)
                    = (if r - 31 - 28 - 31 - 30 - 31 - 30 < 31 then (7, r - 31 - 28 - 31 - 30 - 31 - 30)
                      else Old.month_loop [31, 30, 31, 30, 31] 7 (r - 31 - 28 - 31 - 30 - 31 - 30 - 31)) from rfl] at hml
                by_cases h7 : r - 31 - 28 - 31 - 30 - 31 - 30 < 31
                · rw [if_pos h7] at hml
                  injection hml with hm hd0
                  subst hm; subst hd0
                  omega
                · rw [if_neg h7] at hml
                  rw [show Old.month_loop [31, 30, 31, 30, 31] 7 (r - 31 - 28 - 31 - 30 - 31 - 30 - 31)
                      = (if r - 31 - 28 - 31 - 30 - 31 - 30 - 31 < 31 then (8, r - 31 - 28 - 31 - 30 - 31 - 30 - 31)
                        else Old.month_loop [30, 31, 30, 31] 8 (r - 31 - 28 - 31 - 30 - 31 - 30 - 31 - 31)) from rfl] at hml
                  by_cases h8 : r - 31 - 28 - 31 - 30 - 31 - 30 - 31 < 31
                  · rw [if_pos h8] at hml
                    injection hml with hm hd0
                    subst hm; subst hd0
                    omega
                  · rw [if_neg h8] at hml
                    rw [show Old.month_loop [30, 31, 30, 31] 8 (r - 31 - 28 - 31 - 30 - 31 - 30 - 31 - 31)
                        = (if r - 31 - 28 - 31 - 30 - 31 - 30 - 31 - 31 < 30 then (9, r - 31 - 28 - 31 - 30 - 31 - 30 - 31 - 31)
                          else Old.month_loop [31, 30, 31] 9 (r - 31 - 28 - 31 - 30 - 31 - 30 - 31 - 31 - 30)) from rfl] at hml
                    by_cases h9 : r - 31 - 28 - 31 - 30 - 31 - 30 - 31 - 31 < 30
                    · rw [if_pos h9] at hml
                      injection hml with hm hd0
                      subst hm; subst hd0
                      omega
                    · rw [if_neg h9] at hml
                      rw [show Old.month_loop [31, 30, 31] 9 (r - 31 - 28 - 31 - 30 - 31 - 30 - 31 - 31 - 30)
                          = (if r - 31 - 28 - 31 - 30 - 31 - 30 - 31 - 31 - 30 < 31 then (10, r - 31 - 28 - 31 - 30 - 31 - 30 - 31 - 31 - 30)
                            else Old.month_loop [30, 31] 10 (r - 31 - 28 - 31 - 30 - 31 - 30 - 31 - 31 - 30 - 31)) from rfl] at hml
                      by_cases h10 : r - 31 - 28 - 31 - 30 - 31 - 30 - 31 - 31 - 30 < 31
                      · rw [if_pos h10] at hml
                        injection hml with hm hd0
                        subst hm; subst hd0
                        omega
                      · rw [if_neg h10] at hml
                        rw [show Old.month_loop [30, 31] 10 (r - 31 - 28 - 31 - 30 - 31 - 30 - 31 - 31 - 30 - 31)
                            = (if r - 31 - 28 - 31 - 30 - 31 - 30 - 31 - 31 - 30 - 31 < 30 then (11, r - 31 - 28 - 31 - 30 - 31 - 30 - 31 - 31 - 30 - 31)
                              else Old.month_loop [31] 11 (r - 31 - 28 - 31 - 30 - 31 - 30 - 31 - 31 - 30 - 31 - 30)) from rfl] at hml
                        by_cases h11 : r - 31 - 28 - 31 - 30 - 31 - 30 - 31 - 31 - 30 - 31 < 30
                        · rw [if_pos h11] at hml
                          injection hml with hm hd0
                          subst hm; subst hd0
                          omega
                        · rw [if_neg h11] at hml
                          rw [show Old.month_loop [31] 11 (r - 31 - 28 - 31 - 30 - 31 - 30 - 31 - 31 - 30 - 31 - 30)
                              = (if r - 31 - 28 - 31 - 30 - 31 - 30 - 31 - 31 - 30 - 31 - 30 < 31 then (12, r - 31 - 28 - 31 - 30 - 31 - 30 - 31 - 31 - 30 - 31 - 30)
                                else Old.month_loop [] 12 (r - 31 - 28 - 31 - 30 - 31 - 30 - 31 - 31 - 30 - 31 - 30 - 31)) from rfl] at hml
                          by_cases h12 : r - 31 - 28 - 31 - 30 - 31 - 30 - 31 - 31 - 30 - 31 - 30 < 31
                          · rw [if_pos h12] at hml
                            injection hml with hm hd0
                            subst hm; subst hd0
                            omega
                          · exfalso; omega
theorem old_from_secs_eq (secs : Nat) (h : secs < 253402300800) :
    Old.from_secs secs = httpDate_from_secs secs := by
  have hz : secs / 86400 ≤ 2932896 := by omega
  have h0 : days_to_year 1970 = 0 := by decide
  have h1 : days_to_year (1970 + 8030) = 2932897 := by decide
  have hlt : days_to_year 1970 + secs / 86400 < days_to_year (1970 + 8030) := by
    rw [h0, h1]; omega
  obtain ⟨e1, e2, e3, e4⟩ := year_from_days_char 8030 1970 (secs / 86400)
    (by omega) hlt
  obtain ⟨o1, o2, o3⟩ := old_year_loop_char (secs / 86400) 1970 (by omega)
  obtain ⟨hyy, hrr⟩ := year_uniq o3 e3 o2 e2 (by omega)
  obtain ⟨m1, m2, m3, m4⟩ := month_from_yday_char
    (year_from_days 8030 1970 (secs / 86400)).1
    (year_from_days 8030 1970 (secs / 86400)).2 e2
    (month_from_yday (year_from_days 8030 1970 (secs / 86400)).1
      (year_from_days 8030 1970 (secs / 86400)).2).1
    (month_from_yday (year_from_days 8030 1970 (secs / 86400)).1
      (year_from_days 8030 1970 (secs / 86400)).2).2 rfl
  obtain ⟨n1, n2, n3, n4⟩ := old_month_loop_char
    (Old.year_loop 1970 (secs / 86400)).1 (Old.year_loop 1970 (secs / 86400)).2
    o2
    (Old.month_loop (Old.months_tbl (Old.year_loop 1970 (secs / 86400)).1) 0
      (Old.year_loop 1970 (secs / 86400)).2).1
    (Old.month_loop (Old.months_tbl (Old.year_loop 1970 (secs / 86400)).1) 0
      (Old.year_loop 1970 (secs / 86400)).2).2 rfl
  obtain ⟨w1, w2, w3, w4, w5, w6, w7⟩ := civil_from_days_char (secs / 86400) hz
  have eold : Old.from_secs secs
      = ⟨secs % 86400 % 60, secs % 86400 % 3600 / 60, secs % 86400 / 3600,
        (Old.month_loop (Old.months_tbl (Old.year_loop 1970 (secs / 86400)).1) 0
          (Old.year_loop 1970 (secs / 86400)).2).2 + 1,
        (Old.month_loop (Old.months_tbl (Old.year_loop 1970 (secs / 86400)).1) 0
          (Old.year_loop 1970 (secs / 86400)).2).1,
        (Old.year_loop 1970 (secs / 86400)).1,
        (secs / 86400 + 3) % 7 + 1⟩ := rfl
  have enew : httpDate_from_secs secs
      = ⟨secs % 86400 % 60, secs % 86400 % 3600 / 60, secs % 86400 / 3600,
        (month_from_yday (year_from_days 8030 1970 (secs / 86400)).1
          (year_from_days 8030 1970 (secs / 86400)).2).2 + 1,
        (month_from_yday (year_from_days 8030 1970 (secs / 86400)).1
          (year_from_days 8030 1970 (secs / 86400)).2).1,
        (year_from_days 8030 1970 (secs / 86400)).1,
        weekday_of (civil_from_days (secs / 86400)).1
          (civil_from_days (secs / 86400)).2.1
          (civil_from_days (secs / 86400)).2.2⟩ := rfl
  rw [eold, enew, HttpDate.mk.injEq]
  revert n1 n2 n3 n4
  generalize hOM : Old.month_loop
    (Old.months_tbl (Old.year_loop 1970 (secs / 86400)).1) 0
    (Old.year_loop 1970 (secs / 86400)).2 = OM
  intro n1 n2 n3 n4
  revert m1 m2 m3 m4
  generalize hNM : month_from_yday (year_from_days 8030 1970 (secs / 86400)).1
    (year_from_days 8030 1970 (secs / 86400)).2 = NM
  intro m1 m2 m3 m4
  rw [hyy] at n3 n4
  rw [hrr] at n3
  obtain ⟨hmm, hdd⟩ := month_uniq (year_from_days 8030 1970 (secs / 86400)).1
    OM.1 OM.2 NM.1 NM.2 n1 n2 m1 m2 n4 m4 (by omega)
  refine ⟨rfl, rfl, rfl, by omega, hmm, hyy, ?_⟩
  unfold weekday_of
  rw [w7]

theorem cum_eq_old (y m : Nat) (h1 : 1 ≤ m) (h2 : m ≤ 12) :
    cum_month_days y m
      = Old.month_yday m + (if 3 ≤ m ∧ is_leap_year y then 1 else 0) := by
  interval_cases m <;> rfl

theorem old_to_secs_eq (v : HttpDate) (hv : v.is_valid = true) :
    Old.to_secs v = to_system_time v := by
  obtain ⟨a1, a2, a3, a4, a5, a6, a7, a8, a9, a10⟩ := valid_bounds v hv
  have hcum := cum_eq_old v.year v.mon a6 a7
  have hL : (is_leap_year v.year && decide (2 < v.mon)) = true
      ↔ (3 ≤ v.mon ∧ is_leap_year v.year = true) := by
    rw [Bool.and_eq_true, decide_eq_true_eq]
    exact ⟨fun hx => ⟨by omega, hx.1⟩, fun hx => ⟨hx.2, by omega⟩⟩
  have hadj : (if is_leap_year v.year && decide (2 < v.mon) then 1 else 0)
      = (if 3 ≤ v.mon ∧ is_leap_year v.year then (1 : Nat) else 0) := by
    by_cases hc : (is_leap_year v.year && decide (2 < v.mon)) = true
    · rw [if_pos hc, if_pos (hL.mp hc)]
    · rw [if_neg hc, if_neg (fun hx => hc (hL.mpr hx))]
  have eold : Old.to_secs v = v.sec + v.min * 60 + v.hour * 3600
      + ((v.year - 1970) * 365
        + (((v.year - 1) - 1968) / 4 - ((v.year - 1) - 1900) / 100
          + ((v.year - 1) - 1600) / 400)
        + (Old.month_yday v.mon + v.day - 1
          + (if is_leap_year v.year && decide (2 < v.mon) then 1 else 0)))
        * 86400 := rfl
  have enew : to_system_time v
      = (days_to_year v.year + cum_month_days v.year v.mon + (v.day - 1)) * 86400
        + v.hour * 3600 + v.min * 60 + v.sec := rfl
  rw [eold, enew, hcum, hadj]
  unfold days_to_year leap_years_before
  omega

/-! ### Whitespace, trimming and error-path lemmas -/

theorem ws_lt_128 (c : Nat) (h : is_ws c = true) : c < 128 := by
  simp only [is_ws, Bool.or_eq_true, beq_iff_eq] at h
  omega

theorem dropWhile_ws_append (l s : List Nat) (hl : ∀ x ∈ l, is_ws x = true) :
    (l ++ s).dropWhile is_ws = s.dropWhile is_ws := by
  induction l with
  | nil => rfl
  | cons a t ih =>
    have ha : is_ws a = true := hl a (List.mem_cons_self a t)
    rw [List.cons_append, List.dropWhile_cons, ha, if_pos rfl]
    exact ih (fun x hx => hl x (List.mem_cons_of_mem a hx))

theorem dropWhile_append_ne_nil (p : Nat → Bool) (s q : List Nat)
    (h : s.dropWhile p ≠ []) :
    (s ++ q).dropWhile p = s.dropWhile p ++ q := by
  induction s with
  | nil => simp at h
  | cons a t ih =>
    by_cases hp : p a = true
    · rw [List.dropWhile_cons, hp, if_pos rfl] at h
      rw [List.cons_append, List.dropWhile_cons, hp, if_pos rfl,
        List.dropWhile_cons, hp, if_pos rfl]
      exact ih h
    · have hp' : p a = false := by simpa using hp
      rw [List.cons_append, List.dropWhile_cons, hp', if_neg (by simp),
        List.dropWhile_cons, hp', if_neg (by simp), List.cons_append]

theorem trim_pad (p s q : List Nat) (hp : ∀ x ∈ p, is_ws x = true)
    (hq : ∀ x ∈ q, is_ws x = true) :
    trim (p ++ s ++ q) = trim s := by
  unfold trim
  rw [List.append_assoc, dropWhile_ws_append p (s ++ q) hp]
  by_cases hnil : s.dropWhile is_ws = []
  · have hsws : ∀ x ∈ s, is_ws x = true := fun x hx =>
      (List.dropWhile_eq_nil_iff.mp hnil) x hx
    have hqnil : q.dropWhile is_ws = [] :=
      List.dropWhile_eq_nil_iff.mpr (fun x hx => hq x hx)
    rw [dropWhile_ws_append s q hsws, hnil, hqnil]
  · rw [dropWhile_append_ne_nil is_ws s q hnil,
      List.reverse_append (s.dropWhile is_ws) q,
      dropWhile_ws_append q.reverse (s.dropWhile is_ws).reverse
        (fun x hx => hq x (List.mem_reverse.mp hx))]

theorem is_ascii_pad (p s q : List Nat) (hp : ∀ x ∈ p, is_ws x = true)
    (hq : ∀ x ∈ q, is_ws x = true) :
    is_ascii (p ++ s ++ q) = is_ascii s := by
  unfold is_ascii
  rw [List.all_append, List.all_append]
  have hp' : p.all (fun c => decide (c < 128)) = true := by
    rw [List.all_eq_true]
    intro x hx
    simpa using ws_lt_128 x (hp x hx)
  have hq' : q.all (fun c => decide (c < 128)) = true := by
    rw [List.all_eq_true]
    intro x hx
    simpa using ws_lt_128 x (hq x hx)
  rw [hp', hq']
  simp

theorem from_str_valid (s : List Nat) (d : HttpDate)
    (hs : from_str s = some d) : d.is_valid = true := by
  unfold from_str at hs
  by_cases ha : is_ascii s
  · rw [if_neg (not_not_intro ha)] at hs
    cases htp : try_parsers (trim s) with
    | none => rw [htp] at hs; exact absurd hs (by simp)
    | some e =>
      rw [htp, Option.some_bind] at hs
      by_cases hv : e.is_valid
      · have he : e = d := by
          rw [if_neg (not_not_intro hv)] at hs
          exact Option.some.inj hs
        rw [← he]
        exact hv
      · rw [if_pos hv] at hs
        exact absurd hs (by simp)
  · rw [if_pos ha] at hs
    exact absurd hs (by simp)

theorem toint_2_le (w : List Nat) (v : Nat) (h : toint_2 w = some v) :
    v ≤ 99 := by
  simp only [toint_2] at h
  split at h
  · rename_i hc
    injection h with hv
    omega
  · exact absurd h (by simp)

theorem rfc850_tail_year (s2 : List Nat) (wd : Nat) (d : HttpDate)
    (h : rfc850_tail s2 wd = some d) :
    ∃ yy, toint_2 (slice s2 7 9) = some yy ∧ yy ≤ 99
      ∧ d.year = if yy < 70 then yy + 2000 else yy + 1900 := by
  unfold rfc850_tail at h
  split at h
  · exact absurd h (by simp)
  · split at h
    · exact absurd h (by simp)
    · rename_i yy hyy
      split at h
      · rename_i sec mi hour day mon h1 h2 h3 h4 h5
        refine ⟨yy, hyy, toint_2_le _ _ hyy, ?_⟩
        rw [← Option.some.inj h]
      · exact absurd h (by simp)

/-! ### The claims -/

/-- Claim C1: round-trip — for every instant `t` with 0 ≤ seconds-since-epoch
< 253402300800, parsing the string produced by formatting `t` yields exactly
`t` again: `parse_http_date` on the output of `fmt_http_date t` returns the
same seconds value. -/
theorem claim_C1_roundtrip (t : Int) (h0 : 0 ≤ t) (h1 : t < 253402300800) :
    ∃ L, fmt_http_date t = some L ∧ parse_http_date L = some t.toNat := by
  have hn : t.toNat < 253402300800 := by omega
  have hfs : from_system_time t = some (httpDate_from_secs t.toNat) := by
    unfold from_system_time
    rw [if_neg (by omega), if_neg (by omega)]
  obtain ⟨L, hfmt, hstr, -, -, -⟩ :=
    from_str_of_fmt (httpDate_from_secs t.toNat) (from_secs_valid t.toNat hn)
  refine ⟨L, ?_, ?_⟩
  · unfold fmt_http_date
    rw [hfs, Option.some_bind]
    exact hfmt
  · unfold parse_http_date
    rw [hstr, Option.map_some', to_from t.toNat hn]

theorem claim_C1_roundtrip_witness :
    ∃ L, fmt_http_date 784111777 = some L
      ∧ parse_http_date L = some (Int.toNat 784111777) :=
  claim_C1_roundtrip 784111777 (by decide) (by decide)

/-- Claim C2: cross-format equivalence — the IMF-fixdate, RFC-850 and asctime
renderings of the same moment all parse successfully to the instant 784111777
seconds since the epoch. -/
theorem claim_C2_cross_format :
    parse_http_date (bytes ("Sun, 06 Nov 1994 08:49:37 GMT")) = some 784111777
      ∧ parse_http_date (bytes ("Sunday, 06-Nov-94 08:49:37 GMT"))
        = some 784111777
      ∧ parse_http_date (bytes ("Sun Nov  6 08:49:37 1994"))
        = some 784111777 :=
  ⟨by decide, by decide, by decide⟩

/-- Claim C3: weekday/calendar validation — any accepted date has a textual
weekday agreeing with the weekday computed from (year, month, day) and a day
within `days_in_month`; in particular `"Sun, 07 Nov 1994 08:48:37 GMT"` is
rejected because 1994-11-07 is a Monday. -/
theorem claim_C3_weekday_validation :
    (∀ (s : List Nat) (d : HttpDate), from_str s = some d →
      d.wday = weekday_of d.year d.mon d.day
        ∧ d.day ≤ days_in_month d.year d.mon)
    ∧ from_str (bytes ("Sun, 07 Nov 1994 08:48:37 GMT")) = none := by
  refine ⟨?_, by decide⟩
  intro s d hs
  obtain ⟨-, -, -, -, h5, -, -, -, -, h10⟩ :=
    valid_bounds d (from_str_valid s d hs)
  exact ⟨h10, h5⟩

theorem claim_C3_weekday_validation_witness :
    (⟨37, 49, 8, 6, 11, 1994, 7⟩ : HttpDate).wday = weekday_of 1994 11 6
      ∧ (6 : Nat) ≤ days_in_month 1994 11 :=
  claim_C3_weekday_validation.1 (bytes ("Sun, 06 Nov 1994 08:49:37 GMT"))
    ⟨37, 49, 8, 6, 11, 1994, 7⟩ (by decide)

/-- Claim C4: two-digit year mapping — every successfully parsed RFC-850 date
carries a two-digit year `yy`, and its year field is `2000 + yy` when
`yy < 70` and `1900 + yy` otherwise; in particular year 94 maps to 1994 and
year 05 maps to 2005. -/
theorem claim_C4_two_digit_year :
    (∀ (s : List Nat) (d : HttpDate) (p : Nat × List Nat),
      parse_rfc850_date s = some d → rfc850_wday s = some p →
      ∃ yy, toint_2 (slice p.2 7 9) = some yy ∧ yy ≤ 99
        ∧ d.year = if yy < 70 then yy + 2000 else yy + 1900)
    ∧ (from_str (bytes ("Sunday, 06-Nov-94 08:49:37 GMT"))).map HttpDate.year
        = some 1994
    ∧ (from_str (bytes ("Saturday, 01-Jan-05 00:00:00 GMT"))).map HttpDate.year
        = some 2005 := by
  refine ⟨?_, by decide, by decide⟩
  intro s d p hp hw
  obtain ⟨wd, s2⟩ := p
  unfold parse_rfc850_date at hp
  by_cases hlen : s.length < 23
  · rw [if_pos hlen] at hp
    exact absurd hp (by simp)
  · rw [if_neg hlen, hw] at hp
    exact rfc850_tail_year s2 wd d hp

theorem claim_C4_two_digit_year_witness :
    ∃ yy, toint_2 (slice (bytes ("06-Nov-94 08:49:37 GMT")) 7 9) = some yy
      ∧ yy ≤ 99 ∧ (1994 : Nat) = if yy < 70 then yy + 2000 else yy + 1900 :=
  claim_C4_two_digit_year.1 (bytes ("Sunday, 06-Nov-94 08:49:37 GMT"))
    ⟨37, 49, 8, 6, 11, 1994, 7⟩ (7, bytes ("06-Nov-94 08:49:37 GMT"))
    (by decide) (by decide)

/-- Claim C5: format stability — for every in-range instant, the formatter
produces exactly 29 ASCII bytes matching the fixed IMF-fixdate grammar with
zero-padded numeric fields, and the epoch formats to
`"Thu, 01 Jan 1970 00:00:00 GMT"`. -/
theorem claim_C5_format_stability :
    (∀ t : Int, 0 ≤ t → t < 253402300800 →
      ∃ L, fmt_http_date t = some L ∧ L.length = 29 ∧ is_ascii L = true
        ∧ imf_shape L = true)
    ∧ fmt_http_date 0 = some (bytes ("Thu, 01 Jan 1970 00:00:00 GMT")) := by
  refine ⟨?_, by decide⟩
  intro t h0 h1
  have hn : t.toNat < 253402300800 := by omega
  have hfs : from_system_time t = some (httpDate_from_secs t.toNat) := by
    unfold from_system_time
    rw [if_neg (by omega), if_neg (by omega)]
  obtain ⟨L, hfmt, -, hlen, hascii, hshape⟩ :=
    from_str_of_fmt (httpDate_from_secs t.toNat) (from_secs_valid t.toNat hn)
  refine ⟨L, ?_, hlen, hascii, hshape⟩
  unfold fmt_http_date
  rw [hfs, Option.some_bind]
  exact hfmt

theorem claim_C5_format_stability_witness :
    ∃ L, fmt_http_date 1475419451 = some L ∧ L.length = 29
      ∧ is_ascii L = true ∧ imf_shape L = true :=
  claim_C5_format_stability.1 1475419451 (by decide) (by decide)

/-- Claim C6: ordering and equality follow the underlying instant — `cmp` is
by definition the comparison of the reconstructed instants; on validated
dates, equality holds exactly when the instants coincide, `cmp = lt` exactly
when the instants are ordered, and converting two ordered instants yields
`cmp = lt`. -/
theorem claim_C6_ordering :
    (∀ d1 d2 : HttpDate,
      HttpDate.cmp d1 d2 = compare (to_system_time d1) (to_system_time d2))
    ∧ (∀ d1 d2 : HttpDate, d1.is_valid = true → d2.is_valid = true →
      (d1 = d2 ↔ to_system_time d1 = to_system_time d2)
        ∧ (HttpDate.cmp d1 d2 = Ordering.lt
          ↔ to_system_time d1 < to_system_time d2))
    ∧ (∀ a b : Nat, a < b → b < 253402300800 →
      HttpDate.cmp (httpDate_from_secs a) (httpDate_from_secs b)
        = Ordering.lt) := by
  refine ⟨fun d1 d2 => rfl, fun d1 d2 h1 h2 => ⟨⟨fun he => by rw [he],
    fun he => to_system_time_inj d1 d2 h1 h2 he⟩, Nat.compare_eq_lt⟩, ?_⟩
  intro a b hab hb
  unfold HttpDate.cmp
  rw [to_from a (by omega), to_from b (by omega)]
  exact Nat.compare_eq_lt.mpr hab

theorem claim_C6_ordering_witness :
    ((⟨37, 49, 8, 6, 11, 1994, 7⟩ : HttpDate) = ⟨37, 49, 8, 6, 11, 1994, 7⟩
      ↔ to_system_time ⟨37, 49, 8, 6, 11, 1994, 7⟩
        = to_system_time ⟨37, 49, 8, 6, 11, 1994, 7⟩)
    ∧ HttpDate.cmp (httpDate_from_secs 100) (httpDate_from_secs 200)
      = Ordering.lt :=
  ⟨(claim_C6_ordering.2.1 ⟨37, 49, 8, 6, 11, 1994, 7⟩
      ⟨37, 49, 8, 6, 11, 1994, 7⟩ (by decide) (by decide)).1,
   claim_C6_ordering.2.2 100 200 (by decide) (by decide)⟩

/-- Claim C7: instant-to-HttpDate conversion — every instant with
0 ≤ seconds < 253402300800 converts successfully to a date satisfying the
full validity invariant, while instants at or after that bound, or before
the epoch, hit the fatal out-of-range guard (modelled as `none`). -/
theorem claim_C7_from_instant (t : Int) :
    (0 ≤ t → t < 253402300800 →
      ∃ d, from_system_time t = some d ∧ d.is_valid = true)
    ∧ ((t < 0 ∨ 253402300800 ≤ t) → from_system_time t = none) := by
  constructor
  · intro h0 h1
    refine ⟨httpDate_from_secs t.toNat, ?_, from_secs_valid t.toNat (by omega)⟩
    unfold from_system_time
    rw [if_neg (by omega), if_neg (by omega)]
  · intro h
    unfold from_system_time
    rcases h with h | h
    · rw [if_pos h]
    · rw [if_neg (by omega), if_pos h]

theorem claim_C7_from_instant_witness :
    (∃ d, from_system_time 5 = some d ∧ d.is_valid = true)
    ∧ from_system_time (-1) = none
    ∧ from_system_time 253402300800 = none :=
  ⟨(claim_C7_from_instant 5).1 (by decide) (by decide),
   (claim_C7_from_instant (-1)).2 (Or.inl (by decide)),
   (claim_C7_from_instant 253402300800).2 (Or.inr (by decide))⟩

/-- Claim C8: parse failure conditions — parsing returns the single opaque
error exactly when the input is non-ASCII, or no parser accepts the trimmed
input (wrong shape, non-digit in a numeric field, unknown month or weekday
token), or the structurally parsed date fails the validity check; otherwise
it fully succeeds.  The wrong-separator, seconds-60 and non-ASCII examples
all fail. -/
theorem claim_C8_errors :
    (∀ s : List Nat, from_str s = none ↔
      (is_ascii s = false ∨ try_parsers (trim s) = none
        ∨ ∃ d, try_parsers (trim s) = some d ∧ d.is_valid = false))
    ∧ from_str (bytes ("Sun Nov 10 08*00:00 2000")) = none
    ∧ from_str (bytes ("Sun, 06 Nov 1994 08:49:60 GMT")) = none
    ∧ from_str [83, 117, 110, 200] = none := by
  refine ⟨?_, by decide, by decide, by decide⟩
  intro s
  unfold from_str
  by_cases ha : is_ascii s
  · rw [if_neg (not_not_intro ha)]
    cases htp : try_parsers (trim s) with
    | none => simp [ha, htp]
    | some e =>
      rw [Option.some_bind]
      by_cases hv : e.is_valid
      · rw [if_neg (not_not_intro hv)]
        simp [ha, hv]
      · have hv' : e.is_valid = false := by simpa using hv
        rw [if_pos hv]
        simp [ha, hv']
  · have ha' : is_ascii s = false := by simpa using ha
    rw [if_pos (by simp [ha'])]
    simp [ha']

theorem claim_C8_errors_witness : from_str [200] = none :=
  (claim_C8_errors.1 [200]).mpr (Or.inl (by decide))

/-- Claim C9: refinement of the historical variant — on the supported range
the historical iterative instant-to-civil conversion produces the same
HttpDate as the current conversion, and on every valid HttpDate the
historical closed-form civil-to-instant conversion produces the same
instant as the current conversion. -/
theorem claim_C9_refinement :
    (∀ secs : Nat, secs < 253402300800 →
      Old.from_secs secs = httpDate_from_secs secs)
    ∧ (∀ v : HttpDate, v.is_valid = true → Old.to_secs v = to_system_time v) :=
  ⟨old_from_secs_eq, old_to_secs_eq⟩

theorem claim_C9_refinement_witness :
    Old.from_secs 784111777 = httpDate_from_secs 784111777
      ∧ Old.to_secs ⟨37, 49, 8, 6, 11, 1994, 7⟩
        = to_system_time ⟨37, 49, 8, 6, 11, 1994, 7⟩ :=
  ⟨claim_C9_refinement.1 784111777 (by decide),
   claim_C9_refinement.2 ⟨37, 49, 8, 6, 11, 1994, 7⟩ (by decide)⟩

/-- Claim C10: parsing trims leading and trailing whitespace before format
matching, so surrounding an input with whitespace never changes the result;
in particular `" Sun, 06 Nov 1994 08:49:37 GMT "` is accepted. -/
theorem claim_C10_trim :
    (∀ p s q : List Nat, (∀ x ∈ p, is_ws x = true) → (∀ x ∈ q, is_ws x = true) →
      from_str (p ++ s ++ q) = from_str s)
    ∧ from_str (bytes (" Sun, 06 Nov 1994 08:49:37 GMT "))
        = some ⟨37, 49, 8, 6, 11, 1994, 7⟩ := by
  refine ⟨?_, by decide⟩
  intro p s q hp hq
  unfold from_str
  rw [is_ascii_pad p s q hp hq, trim_pad p s q hp hq]

theorem claim_C10_trim_witness :
    from_str ([32] ++ bytes ("Sun, 06 Nov 1994 08:49:37 GMT") ++ [32])
      = from_str (bytes ("Sun, 06 Nov 1994 08:49:37 GMT")) :=
  claim_C10_trim.1 [32] (bytes ("Sun, 06 Nov 1994 08:49:37 GMT")) [32]
    (by decide) (by decide)

end Httpdate
